import Mathlib

/-!
# Kubeberus RBAC extractors

A shallow embedding of the three pure extraction functions of
`pkg/handlers/rbac` (`extractUserDetails`, `extractServiceAccountDetails`,
`extractUserRoles`) together with the properties of the binding collector and
the role resolver that they implement.

The Kubernetes API objects are reduced to the fields the extractors read or
that distinguish one object from another.  Slices that a function only ranges
over are lists; slices that a function builds with `append` keep the Go
distinction between the nil slice and an allocated one.
-/

namespace Kubeberus

/-! ## Kubernetes API objects -/

/-- Modelled from the spec: the `k8s.io/api/rbac/v1` constant `UserKind` is not
part of the repository sources; it is the subject-kind tag of a user. -/
def UserKind : String := "User"

/-- Modelled from the spec: the `k8s.io/api/rbac/v1` constant
`ServiceAccountKind` is not part of the repository sources; it is the
subject-kind tag of a service account. -/
def ServiceAccountKind : String := "ServiceAccount"

/-- Modelled from the spec: the `k8s.io/api/rbac/v1` type `Subject` is not part
of the repository sources; an entry of a binding's subject list with its kind,
name and (for service accounts) namespace. -/
structure Subject where
  Kind : String
  Name : String
  Namespace : String
deriving DecidableEq, Repr

/-- Modelled from the spec: the `k8s.io/api/rbac/v1` type `RoleRef` is not part
of the repository sources; the named pointer from a binding to a role. -/
structure RoleRef where
  Kind : String
  Name : String
deriving DecidableEq, Repr

/-- Modelled from the spec: the `k8s.io/api/rbac/v1` type `RoleBinding` is not
part of the repository sources; a namespace-scoped grant. -/
structure RoleBinding where
  Name : String
  Namespace : String
  Subjects : List Subject
  RoleRef : RoleRef
deriving DecidableEq, Repr

/-- Modelled from the spec: the `k8s.io/api/rbac/v1` type `ClusterRoleBinding`
is not part of the repository sources; a cluster-scoped grant, shaped like a
`RoleBinding` without the namespace. -/
structure ClusterRoleBinding where
  Name : String
  Subjects : List Subject
  RoleRef : RoleRef
deriving DecidableEq, Repr

/-- Modelled from the spec: the `k8s.io/api/rbac/v1` type `PolicyRule` is not
part of the repository sources; the body of a role, never read by the
extractors. -/
structure PolicyRule where
  Verbs : List String
  APIGroups : List String
  Resources : List String
deriving DecidableEq, Repr

/-- Modelled from the spec: the `k8s.io/api/rbac/v1` type `ClusterRole` is not
part of the repository sources; a cluster-scoped role definition, looked up by
name. -/
structure ClusterRole where
  Name : String
  Rules : List PolicyRule
deriving DecidableEq, Repr

/-! ## Go slices built by `append` -/

/-- A Go slice as a function builds it: `nil` is the zero value of a slice
variable declared with `var`, `alloc xs` a slice with backing storage holding
`xs`. -/
inductive Slice (α : Type) where
  | nil : Slice α
  | alloc (xs : List α) : Slice α
deriving DecidableEq, Repr

/-- The elements of a slice in index order; the nil slice has none. -/
def Slice.elems {α : Type} : Slice α → List α
  | .nil => []
  | .alloc xs => xs

/-- Go's `len`. -/
def Slice.len {α : Type} (s : Slice α) : Nat := s.elems.length

/-- Go's `append(s, x)`: the result is always allocated. -/
def goAppend {α : Type} (s : Slice α) (x : α) : Slice α :=
  .alloc (s.elems ++ [x])

/-- Appending the elements of a list one by one, in order. -/
def Slice.extend {α : Type} (s : Slice α) (l : List α) : Slice α :=
  l.foldl goAppend s

/-- What a collector loop yields over `items`: every item once per subject of
it that has the wanted kind and name, in input order. -/
def collected {γ : Type} (kind name : String) (subjectsOf : γ → List Subject)
    (items : List γ) : List γ :=
  items.flatMap fun it =>
    ((subjectsOf it).filter fun s => s.Kind == kind && s.Name == name).map fun _ => it

/-- What the resolver loop yields: for every binding in order, the roles of
the collection that carry the name its role reference gives, in collection
order. -/
def resolved (bindings : List ClusterRoleBinding) (clusterRoles : List ClusterRole) :
    List ClusterRole :=
  bindings.flatMap fun crb => clusterRoles.filter fun cr => cr.Name == crb.RoleRef.Name

/-- Applying a function to every element of a slice; the nil slice stays
nil. -/
def Slice.map {α β : Type} (f : α → β) : Slice α → Slice β
  | .nil => .nil
  | .alloc xs => .alloc (xs.map f)

/-! ## Rewritings of the input used to compare runs -/

/-- The kind swap: "User" becomes "ServiceAccount", "ServiceAccount" becomes
"User", every other kind string stays. -/
def swapKind (kind : String) : String :=
  if kind = "User" then "ServiceAccount"
  else if kind = "ServiceAccount" then "User"
  else kind

/-- The kind swap on one subject. -/
def swapSubject (s : Subject) : Subject := { s with Kind := swapKind s.Kind }

/-- The kind swap on every subject of a namespaced binding. -/
def swapRoleBinding (b : RoleBinding) : RoleBinding :=
  { b with Subjects := b.Subjects.map swapSubject }

/-- The kind swap on every subject of a cluster binding. -/
def swapClusterRoleBinding (b : ClusterRoleBinding) : ClusterRoleBinding :=
  { b with Subjects := b.Subjects.map swapSubject }

/-- A subject with its namespace blanked. -/
def forgetSubjectNamespace (s : Subject) : Subject := { s with Namespace := "" }

/-- A namespaced binding with its own namespace and that of every subject
blanked: two bindings with the same image differ in namespaces only. -/
def forgetRoleBindingNamespaces (b : RoleBinding) : RoleBinding :=
  { b with Namespace := "", Subjects := b.Subjects.map forgetSubjectNamespace }

/-- A cluster binding with the namespace of every subject blanked. -/
def forgetClusterRoleBindingNamespaces (b : ClusterRoleBinding) : ClusterRoleBinding :=
  { b with Subjects := b.Subjects.map forgetSubjectNamespace }

/-! ## The extractors -/

/-- The record `UserDetailsResponse` of `user_details.go`. -/
structure UserDetailsResponse where
  UserName : String
  RoleBindings : Slice RoleBinding
  ClusterRoleBindings : Slice ClusterRoleBinding
  ClusterRoles : Slice ClusterRole
deriving DecidableEq, Repr

/-- The record `ServiceAccountDetailsResponse` of `serviceaccount_details.go`. -/
structure ServiceAccountDetailsResponse where
  ServiceAccountName : String
  RoleBindings : Slice RoleBinding
  ClusterRoleBindings : Slice ClusterRoleBinding
  ClusterRoles : Slice ClusterRole
deriving DecidableEq, Repr

/-- The function `extractUserDetails` of `user_details.go`: three nested
`range` loops, each appending to a slice variable that starts nil. -/
def extractUserDetails (userName : String) (roleBindings : List RoleBinding)
    (clusterRoleBindings : List ClusterRoleBinding) (clusterRoles : List ClusterRole) :
    UserDetailsResponse :=
  let userRoleBindings : Slice RoleBinding :=
    roleBindings.foldl (fun acc rb =>
      rb.Subjects.foldl (fun acc subject =>
        if subject.Kind == UserKind && subject.Name == userName then goAppend acc rb
        else acc) acc) .nil
  let userClusterRoleBindings : Slice ClusterRoleBinding :=
    clusterRoleBindings.foldl (fun acc crb =>
      crb.Subjects.foldl (fun acc subject =>
        if subject.Kind == UserKind && subject.Name == userName then goAppend acc crb
        else acc) acc) .nil
  let userClusterRoles : Slice ClusterRole :=
    userClusterRoleBindings.elems.foldl (fun acc crb =>
      clusterRoles.foldl (fun acc cr =>
        if cr.Name == crb.RoleRef.Name then goAppend acc cr
        else acc) acc) .nil
  { UserName := userName
    RoleBindings := userRoleBindings
    ClusterRoleBindings := userClusterRoleBindings
    ClusterRoles := userClusterRoles }

/-- The function `extractServiceAccountDetails` of `serviceaccount_details.go`. -/
def extractServiceAccountDetails (serviceAccountName : String)
    (roleBindings : List RoleBinding) (clusterRoleBindings : List ClusterRoleBinding)
    (clusterRoles : List ClusterRole) : ServiceAccountDetailsResponse :=
  let serviceAccountRoleBindings : Slice RoleBinding :=
    roleBindings.foldl (fun acc rb =>
      rb.Subjects.foldl (fun acc subject =>
        if subject.Kind == ServiceAccountKind && subject.Name == serviceAccountName then
          goAppend acc rb
        else acc) acc) .nil
  let serviceAccountClusterRoleBindings : Slice ClusterRoleBinding :=
    clusterRoleBindings.foldl (fun acc crb =>
      crb.Subjects.foldl (fun acc subject =>
        if subject.Kind == ServiceAccountKind && subject.Name == serviceAccountName then
          goAppend acc crb
        else acc) acc) .nil
  let serviceAccountClusterRoles : Slice ClusterRole :=
    serviceAccountClusterRoleBindings.elems.foldl (fun acc crb =>
      clusterRoles.foldl (fun acc cr =>
        if cr.Name == crb.RoleRef.Name then goAppend acc cr
        else acc) acc) .nil
  { ServiceAccountName := serviceAccountName
    RoleBindings := serviceAccountRoleBindings
    ClusterRoleBindings := serviceAccountClusterRoleBindings
    ClusterRoles := serviceAccountClusterRoles }

/-- The function `extractUserRoles` of `user_roles.go`. -/
def extractUserRoles (username : String) (roleBindings : List RoleBinding)
    (clusterRoleBindings : List ClusterRoleBinding) : Slice String :=
  let roles : Slice String :=
    roleBindings.foldl (fun acc rb =>
      rb.Subjects.foldl (fun acc subject =>
        if subject.Kind == UserKind && subject.Name == username then goAppend acc rb.RoleRef.Name
        else acc) acc) .nil
  let roles : Slice String :=
    clusterRoleBindings.foldl (fun acc crb =>
      crb.Subjects.foldl (fun acc subject =>
        if subject.Kind == UserKind && subject.Name == username then goAppend acc crb.RoleRef.Name
        else acc) acc) roles
  roles

/-! ## Sample inputs -/

/-- A namespaced binding that lists alice once as a user and once as a service
account. -/
def sampleRB1 : RoleBinding :=
  { Name := "rb1", Namespace := "dev",
    Subjects := [⟨"User", "alice", ""⟩, ⟨"ServiceAccount", "alice", "dev"⟩],
    RoleRef := ⟨"Role", "edit"⟩ }

/-- A namespaced binding of user bob. -/
def sampleRB2 : RoleBinding :=
  { Name := "rb2", Namespace := "dev", Subjects := [⟨"User", "bob", ""⟩],
    RoleRef := ⟨"ClusterRole", "view"⟩ }

/-- A cluster binding that lists alice once as a user and once as a service
account and refers to the role admin. -/
def sampleCRB1 : ClusterRoleBinding :=
  { Name := "crb1",
    Subjects := [⟨"User", "alice", ""⟩, ⟨"ServiceAccount", "alice", "dev"⟩],
    RoleRef := ⟨"ClusterRole", "admin"⟩ }

/-- A cluster binding of alice whose role reference names no role of
`sampleRoles`. -/
def sampleCRB2 : ClusterRoleBinding :=
  { Name := "crb2",
    Subjects := [⟨"ServiceAccount", "alice", "ops"⟩, ⟨"User", "alice", ""⟩],
    RoleRef := ⟨"ClusterRole", "ghost"⟩ }

/-- Two roles with distinct names. -/
def sampleRoles : List ClusterRole :=
  [⟨"admin", [⟨["*"], ["*"], ["*"]⟩]⟩, ⟨"view", [⟨["get"], [""], ["pods"]⟩]⟩]

/-- The input of the counterexample to C5: one cluster binding of user alice to
the role name admin. -/
def dupRolesBinding : ClusterRoleBinding :=
  { Name := "crb", Subjects := [⟨"User", "alice", ""⟩], RoleRef := ⟨"ClusterRole", "admin"⟩ }

/-- The input of the counterexample to C5: two roles that carry the same name. -/
def dupRoles : List ClusterRole :=
  [⟨"admin", []⟩, ⟨"admin", [⟨["get"], [""], ["pods"]⟩]⟩]

/-- The input of the counterexample to C9: a binding whose only subject is a
user with an empty name. -/
def namelessUserBinding : RoleBinding :=
  { Name := "rb", Namespace := "dev", Subjects := [⟨"User", "", ""⟩],
    RoleRef := ⟨"Role", "edit"⟩ }

/-- A namespaced binding in which alice is a service account only and bob a
user only. -/
def mixedKindRB : RoleBinding :=
  { Name := "rb3", Namespace := "dev",
    Subjects := [⟨"ServiceAccount", "alice", "dev"⟩, ⟨"User", "bob", ""⟩],
    RoleRef := ⟨"Role", "edit"⟩ }

/-- A cluster binding in which alice is a service account only and bob a user
only. -/
def mixedKindCRB : ClusterRoleBinding :=
  { Name := "crb3",
    Subjects := [⟨"User", "bob", ""⟩, ⟨"ServiceAccount", "alice", "dev"⟩],
    RoleRef := ⟨"ClusterRole", "admin"⟩ }

/-- The namespaced binding RB1 of the end-to-end scenario: user alice, role
reference edit. -/
def scenarioRB1 : RoleBinding :=
  { Name := "RB1", Namespace := "default", Subjects := [⟨"User", "alice", ""⟩],
    RoleRef := ⟨"Role", "edit"⟩ }

/-- The namespaced binding RB2 of the end-to-end scenario: user bob, role
reference view. -/
def scenarioRB2 : RoleBinding :=
  { Name := "RB2", Namespace := "default", Subjects := [⟨"User", "bob", ""⟩],
    RoleRef := ⟨"Role", "view"⟩ }

/-- The cluster binding CRB1 of the end-to-end scenario: user alice, role
reference cluster-admin. -/
def scenarioCRB1 : ClusterRoleBinding :=
  { Name := "CRB1", Subjects := [⟨"User", "alice", ""⟩],
    RoleRef := ⟨"ClusterRole", "cluster-admin"⟩ }

/-- The role cluster-admin of the end-to-end scenario. -/
def scenarioClusterAdmin : ClusterRole := ⟨"cluster-admin", [⟨["*"], ["*"], ["*"]⟩]⟩

/-- The role viewer of the end-to-end scenario. -/
def scenarioViewer : ClusterRole := ⟨"viewer", [⟨["get", "list"], [""], ["pods"]⟩]⟩

/-- A cluster binding that lists alice as a user and as a service account and
refers to the role view. -/
def sampleViewCRB : ClusterRoleBinding :=
  { Name := "crb-view",
    Subjects := [⟨"User", "alice", ""⟩, ⟨"ServiceAccount", "alice", "dev"⟩],
    RoleRef := ⟨"ClusterRole", "view"⟩ }

/-- The binding `sampleRB1` moved to other namespaces. -/
def sampleRB1Moved : RoleBinding :=
  { Name := "rb1", Namespace := "prod",
    Subjects := [⟨"User", "alice", "legacy"⟩, ⟨"ServiceAccount", "alice", "prod"⟩],
    RoleRef := ⟨"Role", "edit"⟩ }

/-- The binding `sampleCRB1` with its subjects moved to other namespaces. -/
def sampleCRB1Moved : ClusterRoleBinding :=
  { Name := "crb1",
    Subjects := [⟨"User", "alice", "legacy"⟩, ⟨"ServiceAccount", "alice", "prod"⟩],
    RoleRef := ⟨"ClusterRole", "admin"⟩ }

/-- The first role of `sampleRoles`. -/
def sampleAdmin : ClusterRole := ⟨"admin", [⟨["*"], ["*"], ["*"]⟩]⟩

/-- The second role of `sampleRoles`. -/
def sampleView : ClusterRole := ⟨"view", [⟨["get"], [""], ["pods"]⟩]⟩

/-! ## Loop lemmas -/

theorem Slice.elems_goAppend {α : Type} (s : Slice α) (x : α) :
    (goAppend s x).elems = s.elems ++ [x] := rfl

theorem Slice.elems_extend {α : Type} (l : List α) (s : Slice α) :
    (s.extend l).elems = s.elems ++ l := by
  induction l generalizing s with
  | nil => simp [Slice.extend]
  | cons x xs ih =>
    have h := ih (goAppend s x)
    simp only [Slice.extend, List.foldl_cons] at h ⊢
    rw [h, Slice.elems_goAppend]
    simp

theorem Slice.extend_append {α : Type} (s : Slice α) (l₁ l₂ : List α) :
    s.extend (l₁ ++ l₂) = (s.extend l₁).extend l₂ := by
  simp [Slice.extend, List.foldl_append]

/-- A `range` loop with a guarded `append` in its body appends the images of
the elements that pass the guard, in order. -/
theorem foldl_guarded_append {α β : Type} (p : β → Bool) (f : β → α) (l : List β)
    (acc : Slice α) :
    l.foldl (fun acc b => if p b then goAppend acc (f b) else acc) acc
      = acc.extend ((l.filter p).map f) := by
  induction l generalizing acc with
  | nil => simp [Slice.extend]
  | cons b bs ih =>
    rw [List.foldl_cons, ih]
    by_cases hb : p b = true
    · simp [hb, Slice.extend]
    · simp [hb]

/-- Two nested `range` loops with a guarded `append` in the inner body. -/
theorem foldl_nested_append {α β γ : Type} (subs : γ → List β) (p : γ → β → Bool)
    (f : γ → β → α) (items : List γ) (acc : Slice α) :
    items.foldl (fun acc it =>
        (subs it).foldl (fun acc b => if p it b then goAppend acc (f it b) else acc) acc) acc
      = acc.extend (items.flatMap fun it => ((subs it).filter (p it)).map (f it)) := by
  induction items generalizing acc with
  | nil => simp [Slice.extend]
  | cons it its ih =>
    rw [List.foldl_cons, ih, foldl_guarded_append, List.flatMap_cons, Slice.extend_append]

theorem Slice.elems_nil_extend {α : Type} (l : List α) :
    ((Slice.nil : Slice α).extend l).elems = l := by
  rw [Slice.elems_extend]; rfl

/-! ## What each field of the results is -/

theorem extractUserDetails_RoleBindings (u : String) (rbs : List RoleBinding)
    (crbs : List ClusterRoleBinding) (crs : List ClusterRole) :
    (extractUserDetails u rbs crbs crs).RoleBindings
      = Slice.nil.extend (collected UserKind u RoleBinding.Subjects rbs) := by
  simp only [extractUserDetails, collected]
  exact foldl_nested_append RoleBinding.Subjects
    (fun _ s => s.Kind == UserKind && s.Name == u) (fun rb _ => rb) rbs Slice.nil

theorem extractUserDetails_ClusterRoleBindings (u : String) (rbs : List RoleBinding)
    (crbs : List ClusterRoleBinding) (crs : List ClusterRole) :
    (extractUserDetails u rbs crbs crs).ClusterRoleBindings
      = Slice.nil.extend (collected UserKind u ClusterRoleBinding.Subjects crbs) := by
  simp only [extractUserDetails, collected]
  exact foldl_nested_append ClusterRoleBinding.Subjects
    (fun _ s => s.Kind == UserKind && s.Name == u) (fun crb _ => crb) crbs Slice.nil

theorem extractUserDetails_ClusterRoles (u : String) (rbs : List RoleBinding)
    (crbs : List ClusterRoleBinding) (crs : List ClusterRole) :
    (extractUserDetails u rbs crbs crs).ClusterRoles
      = Slice.nil.extend
          (resolved (extractUserDetails u rbs crbs crs).ClusterRoleBindings.elems crs) := by
  simp only [extractUserDetails, resolved]
  refine (foldl_nested_append (fun (_ : ClusterRoleBinding) => crs)
    (fun (crb : ClusterRoleBinding) (cr : ClusterRole) => cr.Name == crb.RoleRef.Name)
    (fun (_ : ClusterRoleBinding) (cr : ClusterRole) => cr) _ Slice.nil).trans ?_
  simp

theorem extractServiceAccountDetails_RoleBindings (n : String) (rbs : List RoleBinding)
    (crbs : List ClusterRoleBinding) (crs : List ClusterRole) :
    (extractServiceAccountDetails n rbs crbs crs).RoleBindings
      = Slice.nil.extend (collected ServiceAccountKind n RoleBinding.Subjects rbs) := by
  simp only [extractServiceAccountDetails, collected]
  exact foldl_nested_append RoleBinding.Subjects
    (fun _ s => s.Kind == ServiceAccountKind && s.Name == n) (fun rb _ => rb) rbs Slice.nil

theorem extractServiceAccountDetails_ClusterRoleBindings (n : String)
    (rbs : List RoleBinding) (crbs : List ClusterRoleBinding) (crs : List ClusterRole) :
    (extractServiceAccountDetails n rbs crbs crs).ClusterRoleBindings
      = Slice.nil.extend (collected ServiceAccountKind n ClusterRoleBinding.Subjects crbs) := by
  simp only [extractServiceAccountDetails, collected]
  exact foldl_nested_append ClusterRoleBinding.Subjects
    (fun _ s => s.Kind == ServiceAccountKind && s.Name == n) (fun crb _ => crb) crbs Slice.nil

theorem extractServiceAccountDetails_ClusterRoles (n : String) (rbs : List RoleBinding)
    (crbs : List ClusterRoleBinding) (crs : List ClusterRole) :
    (extractServiceAccountDetails n rbs crbs crs).ClusterRoles
      = Slice.nil.extend
          (resolved (extractServiceAccountDetails n rbs crbs crs).ClusterRoleBindings.elems
            crs) := by
  simp only [extractServiceAccountDetails, resolved]
  refine (foldl_nested_append (fun (_ : ClusterRoleBinding) => crs)
    (fun (crb : ClusterRoleBinding) (cr : ClusterRole) => cr.Name == crb.RoleRef.Name)
    (fun (_ : ClusterRoleBinding) (cr : ClusterRole) => cr) _ Slice.nil).trans ?_
  simp

theorem extractUserRoles_eq (u : String) (rbs : List RoleBinding)
    (crbs : List ClusterRoleBinding) :
    extractUserRoles u rbs crbs
      = Slice.nil.extend
          ((collected UserKind u RoleBinding.Subjects rbs).map (fun rb => rb.RoleRef.Name)
            ++ (collected UserKind u ClusterRoleBinding.Subjects crbs).map
                (fun crb => crb.RoleRef.Name)) := by
  simp only [extractUserRoles, collected]
  rw [foldl_nested_append RoleBinding.Subjects
      (fun _ s => s.Kind == UserKind && s.Name == u) (fun rb _ => rb.RoleRef.Name),
    foldl_nested_append ClusterRoleBinding.Subjects
      (fun _ s => s.Kind == UserKind && s.Name == u) (fun crb _ => crb.RoleRef.Name),
    Slice.extend_append]
  simp [List.map_flatMap, Function.comp_def]

/-! ## Facts about the collector and the resolver -/

theorem collected_map_replicate {γ : Type} (kind name : String)
    (subjectsOf : γ → List Subject) (items : List γ) :
    collected kind name subjectsOf items
      = items.flatMap fun it =>
          List.replicate ((subjectsOf it).countP fun s => s.Kind == kind && s.Name == name)
            it := by
  unfold collected
  congr 1
  funext it
  rw [List.countP_eq_length_filter]
  exact List.map_const _ _

theorem mem_collected {γ : Type} (kind name : String) (subjectsOf : γ → List Subject)
    (items : List γ) (b : γ) :
    b ∈ collected kind name subjectsOf items
      ↔ b ∈ items ∧ ∃ s ∈ subjectsOf b, s.Kind = kind ∧ s.Name = name := by
  simp only [collected, List.mem_flatMap, List.mem_map, List.mem_filter,
    Bool.and_eq_true, beq_iff_eq]
  constructor
  · rintro ⟨it, hit, s, ⟨hs, hk⟩, rfl⟩
    exact ⟨hit, s, hs, hk⟩
  · rintro ⟨hb, s, hs, hk⟩
    exact ⟨b, hb, s, ⟨hs, hk⟩, rfl⟩

theorem collected_eq_nil {γ : Type} (kind name : String) (subjectsOf : γ → List Subject)
    (items : List γ)
    (h : ∀ b ∈ items, ∀ s ∈ subjectsOf b, ¬ (s.Kind = kind ∧ s.Name = name)) :
    collected kind name subjectsOf items = [] := by
  rw [List.eq_nil_iff_forall_not_mem]
  intro b hb
  rw [mem_collected] at hb
  obtain ⟨hb, s, hs, hk⟩ := hb
  exact h b hb s hs hk

theorem count_collected {γ : Type} [DecidableEq γ] (kind name : String)
    (subjectsOf : γ → List Subject) (items : List γ) (b : γ) :
    List.count b (collected kind name subjectsOf items)
      = List.count b items
          * (subjectsOf b).countP fun s => s.Kind == kind && s.Name == name := by
  rw [collected_map_replicate]
  induction items with
  | nil => simp
  | cons it its ih =>
    rw [List.flatMap_cons, List.count_append, ih, List.count_replicate, List.count_cons]
    by_cases hit : it = b
    · subst hit
      simp [Nat.add_mul, Nat.add_comm]
    · simp [hit]

theorem collected_eq_filter {γ : Type} (kind name : String)
    (subjectsOf : γ → List Subject) (items : List γ)
    (h : ∀ b ∈ items,
      ((subjectsOf b).countP fun s => s.Kind == kind && s.Name == name) ≤ 1) :
    collected kind name subjectsOf items
      = items.filter fun b =>
          (subjectsOf b).any fun s => s.Kind == kind && s.Name == name := by
  rw [collected_map_replicate]
  induction items with
  | nil => simp
  | cons it its ih =>
    have hit := h it (List.mem_cons_self _ _)
    rw [List.flatMap_cons, ih fun b hb => h b (List.mem_cons_of_mem _ hb)]
    by_cases hany : ((subjectsOf it).any fun s => s.Kind == kind && s.Name == name) = true
    · have hpos : 0 < (subjectsOf it).countP fun s => s.Kind == kind && s.Name == name := by
        rw [List.countP_pos_iff]
        simpa using hany
      have hone : ((subjectsOf it).countP fun s => s.Kind == kind && s.Name == name) = 1 := by
        omega
      rw [hone, List.filter_cons, if_pos hany]
      rfl
    · have hzero : ((subjectsOf it).countP fun s => s.Kind == kind && s.Name == name) = 0 := by
        rw [List.countP_eq_zero]
        simpa using hany
      rw [hzero, List.filter_cons, if_neg hany]
      rfl

theorem elems_userRoleBindings (u : String) (rbs : List RoleBinding)
    (crbs : List ClusterRoleBinding) (crs : List ClusterRole) :
    (extractUserDetails u rbs crbs crs).RoleBindings.elems
      = collected UserKind u RoleBinding.Subjects rbs := by
  rw [extractUserDetails_RoleBindings, Slice.elems_nil_extend]

theorem elems_userClusterRoleBindings (u : String) (rbs : List RoleBinding)
    (crbs : List ClusterRoleBinding) (crs : List ClusterRole) :
    (extractUserDetails u rbs crbs crs).ClusterRoleBindings.elems
      = collected UserKind u ClusterRoleBinding.Subjects crbs := by
  rw [extractUserDetails_ClusterRoleBindings, Slice.elems_nil_extend]

theorem elems_userClusterRoles (u : String) (rbs : List RoleBinding)
    (crbs : List ClusterRoleBinding) (crs : List ClusterRole) :
    (extractUserDetails u rbs crbs crs).ClusterRoles.elems
      = resolved (extractUserDetails u rbs crbs crs).ClusterRoleBindings.elems crs := by
  rw [extractUserDetails_ClusterRoles, Slice.elems_nil_extend]

theorem elems_serviceAccountRoleBindings (n : String) (rbs : List RoleBinding)
    (crbs : List ClusterRoleBinding) (crs : List ClusterRole) :
    (extractServiceAccountDetails n rbs crbs crs).RoleBindings.elems
      = collected ServiceAccountKind n RoleBinding.Subjects rbs := by
  rw [extractServiceAccountDetails_RoleBindings, Slice.elems_nil_extend]

theorem elems_serviceAccountClusterRoleBindings (n : String) (rbs : List RoleBinding)
    (crbs : List ClusterRoleBinding) (crs : List ClusterRole) :
    (extractServiceAccountDetails n rbs crbs crs).ClusterRoleBindings.elems
      = collected ServiceAccountKind n ClusterRoleBinding.Subjects crbs := by
  rw [extractServiceAccountDetails_ClusterRoleBindings, Slice.elems_nil_extend]

theorem elems_serviceAccountClusterRoles (n : String) (rbs : List RoleBinding)
    (crbs : List ClusterRoleBinding) (crs : List ClusterRole) :
    (extractServiceAccountDetails n rbs crbs crs).ClusterRoles.elems
      = resolved (extractServiceAccountDetails n rbs crbs crs).ClusterRoleBindings.elems
          crs := by
  rw [extractServiceAccountDetails_ClusterRoles, Slice.elems_nil_extend]

theorem elems_userRoles (u : String) (rbs : List RoleBinding)
    (crbs : List ClusterRoleBinding) :
    (extractUserRoles u rbs crbs).elems
      = (collected UserKind u RoleBinding.Subjects rbs).map (fun rb => rb.RoleRef.Name)
          ++ (collected UserKind u ClusterRoleBinding.Subjects crbs).map
              (fun crb => crb.RoleRef.Name) := by
  rw [extractUserRoles_eq, Slice.elems_nil_extend]

theorem resolved_append (bs₁ bs₂ : List ClusterRoleBinding) (crs : List ClusterRole) :
    resolved (bs₁ ++ bs₂) crs = resolved bs₁ crs ++ resolved bs₂ crs := by
  simp [resolved]

theorem resolved_cons (b : ClusterRoleBinding) (bs : List ClusterRoleBinding)
    (crs : List ClusterRole) :
    resolved (b :: bs) crs
      = (crs.filter fun cr => cr.Name == b.RoleRef.Name) ++ resolved bs crs := by
  simp [resolved]

/-- Among roles with pairwise distinct names at most one carries a given name. -/
theorem length_filter_name_le_one (crs : List ClusterRole) (n : String)
    (h : (crs.map ClusterRole.Name).Nodup) :
    (crs.filter fun cr => cr.Name == n).length ≤ 1 := by
  induction crs with
  | nil => simp
  | cons cr rest ih =>
    rw [List.map_cons, List.nodup_cons] at h
    by_cases hn : cr.Name = n
    · have hrest : (rest.filter fun c => c.Name == n) = [] := by
        rw [List.filter_eq_nil_iff]
        intro c hc hcn
        rw [beq_iff_eq] at hcn
        exact h.1 (List.mem_map.mpr ⟨c, hc, hcn.trans hn.symm⟩)
      simp [List.filter_cons, hn, hrest]
    · have := ih h.2
      simpa [List.filter_cons, hn] using this

theorem length_resolved_le (bs : List ClusterRoleBinding) (crs : List ClusterRole)
    (h : (crs.map ClusterRole.Name).Nodup) :
    (resolved bs crs).length ≤ bs.length := by
  induction bs with
  | nil => simp [resolved]
  | cons b rest ih =>
    rw [resolved_cons, List.length_append, List.length_cons]
    have := length_filter_name_le_one crs b.RoleRef.Name h
    omega

/-- Among roles with pairwise distinct names, a role of the collection is
selected by a name exactly once when the name is its own, and not otherwise. -/
theorem count_filter_name (crs : List ClusterRole) (n : String) (cr : ClusterRole)
    (h : (crs.map ClusterRole.Name).Nodup) (hcr : cr ∈ crs) :
    List.count cr (crs.filter fun c => c.Name == n) = if n = cr.Name then 1 else 0 := by
  by_cases hn : n = cr.Name
  · rw [if_pos hn, List.count_filter (by simp [hn])]
    exact List.count_eq_one_of_mem (List.Nodup.of_map _ h) hcr
  · rw [if_neg hn, List.count_eq_zero]
    intro hmem
    rw [List.mem_filter, beq_iff_eq] at hmem
    exact hn hmem.2.symm

theorem count_resolved (bs : List ClusterRoleBinding) (crs : List ClusterRole)
    (cr : ClusterRole) (h : (crs.map ClusterRole.Name).Nodup) (hcr : cr ∈ crs) :
    List.count cr (resolved bs crs) = bs.countP fun crb => crb.RoleRef.Name == cr.Name := by
  induction bs with
  | nil => simp [resolved]
  | cons b rest ih =>
    rw [resolved_cons, List.count_append, ih, count_filter_name crs _ cr h hcr,
      List.countP_cons]
    by_cases hn : b.RoleRef.Name = cr.Name
    · simp [hn, Nat.add_comm]
    · simp [hn]

theorem collected_cons {γ : Type} (kind name : String) (subjectsOf : γ → List Subject)
    (it : γ) (its : List γ) :
    collected kind name subjectsOf (it :: its)
      = List.replicate ((subjectsOf it).countP fun s => s.Kind == kind && s.Name == name) it
          ++ collected kind name subjectsOf its := by
  rw [collected_map_replicate, collected_map_replicate, List.flatMap_cons]

theorem resolved_eq_nil (bs : List ClusterRoleBinding) (crs : List ClusterRole)
    (h : ∀ b ∈ bs, ∀ cr ∈ crs, cr.Name ≠ b.RoleRef.Name) : resolved bs crs = [] := by
  unfold resolved
  rw [List.flatMap_eq_nil_iff]
  intro b hb
  rw [List.filter_eq_nil_iff]
  intro cr hcr hn
  exact h b hb cr hcr (by simpa using hn)

/-- Bindings whose role reference names no role of the collection contribute
nothing to the resolved roles. -/
theorem resolved_collected_filter {kind name : String} (crbs : List ClusterRoleBinding)
    (crs : List ClusterRole) :
    resolved (collected kind name ClusterRoleBinding.Subjects
        (crbs.filter fun b => crs.any fun cr => cr.Name == b.RoleRef.Name)) crs
      = resolved (collected kind name ClusterRoleBinding.Subjects crbs) crs := by
  induction crbs with
  | nil => rfl
  | cons b rest ih =>
    by_cases hb : (crs.any fun cr => cr.Name == b.RoleRef.Name) = true
    · rw [List.filter_cons, if_pos hb, collected_cons, collected_cons, resolved_append,
        resolved_append, ih]
    · rw [List.filter_cons, if_neg hb, collected_cons, resolved_append, ih]
      have hnil : resolved (List.replicate
          (b.Subjects.countP fun s => s.Kind == kind && s.Name == name) b) crs = [] := by
        apply resolved_eq_nil
        intro b' hb' cr hcr hn
        rw [List.eq_of_mem_replicate hb'] at hn
        exact hb (List.any_eq_true.mpr ⟨cr, hcr, by simpa using hn⟩)
      rw [hnil, List.nil_append]

/-- When the collector finds nothing for a user, every sequence the user
extractors return is empty. -/
theorem user_results_empty (p : String) (rbs : List RoleBinding)
    (crbs : List ClusterRoleBinding) (crs : List ClusterRole)
    (hrb : collected UserKind p RoleBinding.Subjects rbs = [])
    (hcrb : collected UserKind p ClusterRoleBinding.Subjects crbs = []) :
    (extractUserDetails p rbs crbs crs).RoleBindings.elems = []
    ∧ (extractUserDetails p rbs crbs crs).ClusterRoleBindings.elems = []
    ∧ (extractUserDetails p rbs crbs crs).ClusterRoles.elems = []
    ∧ (extractUserRoles p rbs crbs).elems = [] := by
  refine ⟨?_, ?_, ?_, ?_⟩
  · rw [elems_userRoleBindings, hrb]
  · rw [elems_userClusterRoleBindings, hcrb]
  · rw [elems_userClusterRoles, elems_userClusterRoleBindings, hcrb]; rfl
  · rw [elems_userRoles, hrb, hcrb]; rfl

/-- When the collector finds nothing for a service account, every sequence
`extractServiceAccountDetails` returns is empty. -/
theorem serviceAccount_results_empty (p : String) (rbs : List RoleBinding)
    (crbs : List ClusterRoleBinding) (crs : List ClusterRole)
    (hrb : collected ServiceAccountKind p RoleBinding.Subjects rbs = [])
    (hcrb : collected ServiceAccountKind p ClusterRoleBinding.Subjects crbs = []) :
    (extractServiceAccountDetails p rbs crbs crs).RoleBindings.elems = []
    ∧ (extractServiceAccountDetails p rbs crbs crs).ClusterRoleBindings.elems = []
    ∧ (extractServiceAccountDetails p rbs crbs crs).ClusterRoles.elems = [] := by
  refine ⟨?_, ?_, ?_⟩
  · rw [elems_serviceAccountRoleBindings, hrb]
  · rw [elems_serviceAccountClusterRoleBindings, hcrb]
  · rw [elems_serviceAccountClusterRoles, elems_serviceAccountClusterRoleBindings, hcrb]; rfl

theorem Slice.nil_extend_nil {α : Type} : (Slice.nil : Slice α).extend [] = Slice.nil := rfl

/-- When the collector finds nothing for a user, every slice the user
extractors return is still the nil slice. -/
theorem user_results_nil (p : String) (rbs : List RoleBinding)
    (crbs : List ClusterRoleBinding) (crs : List ClusterRole)
    (hrb : collected UserKind p RoleBinding.Subjects rbs = [])
    (hcrb : collected UserKind p ClusterRoleBinding.Subjects crbs = []) :
    (extractUserDetails p rbs crbs crs).RoleBindings = Slice.nil
    ∧ (extractUserDetails p rbs crbs crs).ClusterRoleBindings = Slice.nil
    ∧ (extractUserDetails p rbs crbs crs).ClusterRoles = Slice.nil
    ∧ extractUserRoles p rbs crbs = Slice.nil := by
  refine ⟨?_, ?_, ?_, ?_⟩
  · rw [extractUserDetails_RoleBindings, hrb]; rfl
  · rw [extractUserDetails_ClusterRoleBindings, hcrb]; rfl
  · rw [extractUserDetails_ClusterRoles, elems_userClusterRoleBindings, hcrb]; rfl
  · rw [extractUserRoles_eq, hrb, hcrb]; rfl

/-- When the collector finds nothing for a service account, every slice
`extractServiceAccountDetails` returns is still the nil slice. -/
theorem serviceAccount_results_nil (p : String) (rbs : List RoleBinding)
    (crbs : List ClusterRoleBinding) (crs : List ClusterRole)
    (hrb : collected ServiceAccountKind p RoleBinding.Subjects rbs = [])
    (hcrb : collected ServiceAccountKind p ClusterRoleBinding.Subjects crbs = []) :
    (extractServiceAccountDetails p rbs crbs crs).RoleBindings = Slice.nil
    ∧ (extractServiceAccountDetails p rbs crbs crs).ClusterRoleBindings = Slice.nil
    ∧ (extractServiceAccountDetails p rbs crbs crs).ClusterRoles = Slice.nil := by
  refine ⟨?_, ?_, ?_⟩
  · rw [extractServiceAccountDetails_RoleBindings, hrb]; rfl
  · rw [extractServiceAccountDetails_ClusterRoleBindings, hcrb]; rfl
  · rw [extractServiceAccountDetails_ClusterRoles, elems_serviceAccountClusterRoleBindings,
      hcrb]; rfl

theorem Slice.map_goAppend {α β : Type} (f : α → β) (s : Slice α) (x : α) :
    Slice.map f (goAppend s x) = goAppend (Slice.map f s) (f x) := by
  cases s <;> simp [Slice.map, goAppend, Slice.elems]

theorem Slice.map_extend {α β : Type} (f : α → β) (l : List α) (s : Slice α) :
    Slice.map f (s.extend l) = (Slice.map f s).extend (l.map f) := by
  induction l generalizing s with
  | nil => rfl
  | cons x xs ih =>
    have h := ih (goAppend s x)
    simp only [Slice.extend, List.foldl_cons, List.map_cons] at h ⊢
    rw [h, Slice.map_goAppend]

/-- Rewriting the items of a collector input commutes with collecting, when
the rewriting of the subjects turns the test for `kind'` into the test for
`kind`. -/
theorem collected_map {γ : Type} (kind kind' name : String) (subjectsOf : γ → List Subject)
    (f : γ → γ) (g : Subject → Subject)
    (hg : ∀ s, ((g s).Kind == kind && (g s).Name == name) = (s.Kind == kind' && s.Name == name))
    (hf : ∀ it, subjectsOf (f it) = (subjectsOf it).map g) (items : List γ) :
    collected kind name subjectsOf (items.map f)
      = (collected kind' name subjectsOf items).map f := by
  induction items with
  | nil => rfl
  | cons it its ih =>
    rw [List.map_cons, collected_cons, collected_cons, ih, List.map_append,
      List.map_replicate, hf, List.countP_map]
    congr 3
    funext s
    exact hg s

theorem resolved_map (f : ClusterRoleBinding → ClusterRoleBinding)
    (hf : ∀ c, (f c).RoleRef.Name = c.RoleRef.Name) (bs : List ClusterRoleBinding)
    (crs : List ClusterRole) : resolved (bs.map f) crs = resolved bs crs := by
  induction bs with
  | nil => rfl
  | cons b rest ih => rw [List.map_cons, resolved_cons, resolved_cons, ih, hf]

theorem swapKind_swapKind (k : String) : swapKind (swapKind k) = k := by
  unfold swapKind
  by_cases h₁ : k = "User"
  · subst h₁; decide
  · by_cases h₂ : k = "ServiceAccount"
    · subst h₂; decide
    · simp [h₁, h₂]

theorem swapKind_eq_user (k : String) : swapKind k = "User" ↔ k = "ServiceAccount" := by
  unfold swapKind
  by_cases h₁ : k = "User"
  · subst h₁; decide
  · by_cases h₂ : k = "ServiceAccount"
    · subst h₂; decide
    · simp [h₁, h₂]

theorem swapSubject_swapSubject (s : Subject) : swapSubject (swapSubject s) = s := by
  cases s
  simp [swapSubject, swapKind_swapKind]

theorem swapRoleBinding_swapRoleBinding (b : RoleBinding) :
    swapRoleBinding (swapRoleBinding b) = b := by
  cases b
  simp [swapRoleBinding, Function.comp_def, swapSubject_swapSubject]

theorem swapClusterRoleBinding_swapClusterRoleBinding (b : ClusterRoleBinding) :
    swapClusterRoleBinding (swapClusterRoleBinding b) = b := by
  cases b
  simp [swapClusterRoleBinding, Function.comp_def, swapSubject_swapSubject]

/-- A swapped subject passes the user test exactly when the subject passes
the service-account test. -/
theorem swapSubject_test (n : String) (s : Subject) :
    ((swapSubject s).Kind == UserKind && (swapSubject s).Name == n)
      = (s.Kind == ServiceAccountKind && s.Name == n) := by
  have h : ((swapSubject s).Kind == UserKind) = (s.Kind == ServiceAccountKind) := by
    rw [Bool.eq_iff_iff, beq_iff_eq, beq_iff_eq]
    exact swapKind_eq_user s.Kind
  rw [h]
  rfl

/-- Blanking the namespace of a subject does not change any kind-and-name
test. -/
theorem forgetSubjectNamespace_test (kind n : String) (s : Subject) :
    ((forgetSubjectNamespace s).Kind == kind && (forgetSubjectNamespace s).Name == n)
      = (s.Kind == kind && s.Name == n) := rfl

theorem mem_resolved (bs : List ClusterRoleBinding) (crs : List ClusterRole) (a : ClusterRole) :
    a ∈ resolved bs crs ↔ a ∈ crs ∧ ∃ c ∈ bs, a.Name = c.RoleRef.Name := by
  simp only [resolved, List.mem_flatMap, List.mem_filter, beq_iff_eq]
  constructor
  · rintro ⟨c, hc, ha, hn⟩
    exact ⟨ha, c, hc, hn⟩
  · rintro ⟨ha, c, hc, hn⟩
    exact ⟨c, hc, ha, hn⟩

/-- Filtering keeps the relative order of first occurrences. -/
theorem indexOf_filter_lt {α : Type} [DecidableEq α] (p : α → Bool) (a b : α)
    (ha : p a = true) (hb : p b = true) (l : List α)
    (h : List.indexOf a (l.filter p) < List.indexOf b (l.filter p)) :
    List.indexOf a l < List.indexOf b l := by
  induction l with
  | nil => simp at h
  | cons x xs ih =>
    by_cases hx : p x = true
    · rw [List.filter_cons, if_pos hx] at h
      by_cases hxa : x = a
      · by_cases hxb : x = b
        · rw [List.indexOf_cons_eq _ hxa, List.indexOf_cons_eq _ hxb] at h
          omega
        · rw [List.indexOf_cons_eq _ hxa, List.indexOf_cons_ne _ hxb]
          omega
      · by_cases hxb : x = b
        · rw [List.indexOf_cons_ne _ hxa, List.indexOf_cons_eq _ hxb] at h
          omega
        · rw [List.indexOf_cons_ne _ hxa, List.indexOf_cons_ne _ hxb] at h ⊢
          have := ih (by omega)
          omega
    · rw [List.filter_cons, if_neg hx] at h
      have hxa : x ≠ a := fun e => hx (e ▸ ha)
      have hxb : x ≠ b := fun e => hx (e ▸ hb)
      rw [List.indexOf_cons_ne _ hxa, List.indexOf_cons_ne _ hxb]
      have := ih h
      omega

/-- The resolved roles are ordered by binding first and by position in the
role collection second. -/
theorem resolved_order (bs : List ClusterRoleBinding) (crs : List ClusterRole)
    (a b : ClusterRole) (ha : a ∈ resolved bs crs) (hb : b ∈ resolved bs crs)
    (h : List.indexOf a (resolved bs crs) < List.indexOf b (resolved bs crs)) :
    List.indexOf a.Name (bs.map fun c => c.RoleRef.Name)
        ≤ List.indexOf b.Name (bs.map fun c => c.RoleRef.Name)
    ∧ (a.Name = b.Name → List.indexOf a crs < List.indexOf b crs) := by
  induction bs with
  | nil => simp [resolved] at ha
  | cons c cs ih =>
    have hacrs : a ∈ crs := ((mem_resolved _ crs a).mp ha).1
    have hbcrs : b ∈ crs := ((mem_resolved _ crs b).mp hb).1
    rw [resolved_cons] at ha hb h
    rw [List.map_cons]
    by_cases hac : a.Name = c.RoleRef.Name
    · have hain : a ∈ crs.filter fun cr => cr.Name == c.RoleRef.Name :=
        List.mem_filter.mpr ⟨hacrs, by simpa using hac⟩
      refine ⟨?_, fun hab => ?_⟩
      · rw [List.indexOf_cons_eq _ hac.symm]
        omega
      · have hbin : b ∈ crs.filter fun cr => cr.Name == c.RoleRef.Name :=
          List.mem_filter.mpr ⟨hbcrs, by simpa using hab ▸ hac⟩
        rw [List.indexOf_append_of_mem hain, List.indexOf_append_of_mem hbin] at h
        exact indexOf_filter_lt _ a b (by simpa using hac) (by simpa using hab ▸ hac) crs h
    · have hanot : a ∉ crs.filter fun cr => cr.Name == c.RoleRef.Name := by
        intro hmem
        exact hac (by simpa using (List.mem_filter.mp hmem).2)
      have harest : a ∈ resolved cs crs := by
        rcases List.mem_append.mp ha with h' | h'
        · exact absurd h' hanot
        · exact h'
      rw [List.indexOf_append_of_not_mem hanot] at h
      by_cases hbc : b.Name = c.RoleRef.Name
      · have hbin : b ∈ crs.filter fun cr => cr.Name == c.RoleRef.Name :=
          List.mem_filter.mpr ⟨hbcrs, by simpa using hbc⟩
        rw [List.indexOf_append_of_mem hbin] at h
        have := List.indexOf_lt_length.mpr hbin
        omega
      · have hbnot : b ∉ crs.filter fun cr => cr.Name == c.RoleRef.Name := by
          intro hmem
          exact hbc (by simpa using (List.mem_filter.mp hmem).2)
        have hbrest : b ∈ resolved cs crs := by
          rcases List.mem_append.mp hb with h' | h'
          · exact absurd h' hbnot
          · exact h'
        rw [List.indexOf_append_of_not_mem hbnot] at h
        have := ih harest hbrest (by omega)
        rw [List.indexOf_cons_ne _ (Ne.symm hac), List.indexOf_cons_ne _ (Ne.symm hbc)]
        exact ⟨by omega, this.2⟩

/-! ## The binding collector -/

/-- C1: a binding is among the matched RoleBindings (resp. ClusterRoleBindings)
of `extractUserDetails u` exactly when it is in the corresponding input and one
of its subjects has kind "User" and name `u`; likewise for
`extractServiceAccountDetails` with kind "ServiceAccount". -/
theorem collector_membership (u : String) (rbs : List RoleBinding)
    (crbs : List ClusterRoleBinding) (crs : List ClusterRole) :
    (∀ b : RoleBinding, b ∈ (extractUserDetails u rbs crbs crs).RoleBindings.elems
        ↔ b ∈ rbs ∧ ∃ s ∈ b.Subjects, s.Kind = "User" ∧ s.Name = u)
    ∧ (∀ b : ClusterRoleBinding,
        b ∈ (extractUserDetails u rbs crbs crs).ClusterRoleBindings.elems
        ↔ b ∈ crbs ∧ ∃ s ∈ b.Subjects, s.Kind = "User" ∧ s.Name = u)
    ∧ (∀ b : RoleBinding,
        b ∈ (extractServiceAccountDetails u rbs crbs crs).RoleBindings.elems
        ↔ b ∈ rbs ∧ ∃ s ∈ b.Subjects, s.Kind = "ServiceAccount" ∧ s.Name = u)
    ∧ (∀ b : ClusterRoleBinding,
        b ∈ (extractServiceAccountDetails u rbs crbs crs).ClusterRoleBindings.elems
        ↔ b ∈ crbs ∧ ∃ s ∈ b.Subjects, s.Kind = "ServiceAccount" ∧ s.Name = u) := by
  refine ⟨fun b => ?_, fun b => ?_, fun b => ?_, fun b => ?_⟩
  · rw [elems_userRoleBindings, mem_collected]; rfl
  · rw [elems_userClusterRoleBindings, mem_collected]; rfl
  · rw [elems_serviceAccountRoleBindings, mem_collected]; rfl
  · rw [elems_serviceAccountClusterRoleBindings, mem_collected]; rfl

/-- C2: the collector preserves duplicates: a binding occurs in the matched
output as often as it occurs in the input times the number of its subject
entries that match the principal's kind and name. -/
theorem collector_count (p : String) (rbs : List RoleBinding)
    (crbs : List ClusterRoleBinding) (crs : List ClusterRole) :
    (∀ b : RoleBinding,
        List.count b (extractUserDetails p rbs crbs crs).RoleBindings.elems
          = List.count b rbs
              * b.Subjects.countP fun s => s.Kind == "User" && s.Name == p)
    ∧ (∀ b : ClusterRoleBinding,
        List.count b (extractUserDetails p rbs crbs crs).ClusterRoleBindings.elems
          = List.count b crbs
              * b.Subjects.countP fun s => s.Kind == "User" && s.Name == p)
    ∧ (∀ b : RoleBinding,
        List.count b (extractServiceAccountDetails p rbs crbs crs).RoleBindings.elems
          = List.count b rbs
              * b.Subjects.countP fun s => s.Kind == "ServiceAccount" && s.Name == p)
    ∧ (∀ b : ClusterRoleBinding,
        List.count b (extractServiceAccountDetails p rbs crbs crs).ClusterRoleBindings.elems
          = List.count b crbs
              * b.Subjects.countP fun s => s.Kind == "ServiceAccount" && s.Name == p) := by
  refine ⟨fun b => ?_, fun b => ?_, fun b => ?_, fun b => ?_⟩
  · rw [elems_userRoleBindings, count_collected]; rfl
  · rw [elems_userClusterRoleBindings, count_collected]; rfl
  · rw [elems_serviceAccountRoleBindings, count_collected]; rfl
  · rw [elems_serviceAccountClusterRoleBindings, count_collected]; rfl

/-- C3: when no binding lists the principal as subject more than once, the
matched bindings are the input filtered, in input order, by "some subject has
the principal's kind and name". -/
theorem collector_is_filter (p : String) (rbs : List RoleBinding)
    (crbs : List ClusterRoleBinding) (crs : List ClusterRole) :
    ((∀ b ∈ rbs, (b.Subjects.countP fun s => s.Kind == "User" && s.Name == p) ≤ 1) →
        (extractUserDetails p rbs crbs crs).RoleBindings.elems
          = rbs.filter fun b => b.Subjects.any fun s => s.Kind == "User" && s.Name == p)
    ∧ ((∀ b ∈ crbs, (b.Subjects.countP fun s => s.Kind == "User" && s.Name == p) ≤ 1) →
        (extractUserDetails p rbs crbs crs).ClusterRoleBindings.elems
          = crbs.filter fun b => b.Subjects.any fun s => s.Kind == "User" && s.Name == p)
    ∧ ((∀ b ∈ rbs,
          (b.Subjects.countP fun s => s.Kind == "ServiceAccount" && s.Name == p) ≤ 1) →
        (extractServiceAccountDetails p rbs crbs crs).RoleBindings.elems
          = rbs.filter fun b =>
              b.Subjects.any fun s => s.Kind == "ServiceAccount" && s.Name == p)
    ∧ ((∀ b ∈ crbs,
          (b.Subjects.countP fun s => s.Kind == "ServiceAccount" && s.Name == p) ≤ 1) →
        (extractServiceAccountDetails p rbs crbs crs).ClusterRoleBindings.elems
          = crbs.filter fun b =>
              b.Subjects.any fun s => s.Kind == "ServiceAccount" && s.Name == p) := by
  refine ⟨fun h => ?_, fun h => ?_, fun h => ?_, fun h => ?_⟩
  · rw [elems_userRoleBindings]
    exact collected_eq_filter UserKind p RoleBinding.Subjects rbs h
  · rw [elems_userClusterRoleBindings]
    exact collected_eq_filter UserKind p ClusterRoleBinding.Subjects crbs h
  · rw [elems_serviceAccountRoleBindings]
    exact collected_eq_filter ServiceAccountKind p RoleBinding.Subjects rbs h
  · rw [elems_serviceAccountClusterRoleBindings]
    exact collected_eq_filter ServiceAccountKind p ClusterRoleBinding.Subjects crbs h

/-- The statement of C3 at a concrete input in which alice is listed once per
binding, as a user and as a service account. -/
theorem collector_is_filter_witness :
    ((∀ b ∈ [sampleRB1, sampleRB2],
        (b.Subjects.countP fun s => s.Kind == "User" && s.Name == "alice") ≤ 1)
      ∧ (extractUserDetails "alice" [sampleRB1, sampleRB2] [sampleCRB1, sampleCRB2]
            sampleRoles).RoleBindings.elems
          = [sampleRB1, sampleRB2].filter fun b =>
              b.Subjects.any fun s => s.Kind == "User" && s.Name == "alice")
    ∧ ((∀ b ∈ [sampleCRB1, sampleCRB2],
        (b.Subjects.countP fun s => s.Kind == "User" && s.Name == "alice") ≤ 1)
      ∧ (extractUserDetails "alice" [sampleRB1, sampleRB2] [sampleCRB1, sampleCRB2]
            sampleRoles).ClusterRoleBindings.elems
          = [sampleCRB1, sampleCRB2].filter fun b =>
              b.Subjects.any fun s => s.Kind == "User" && s.Name == "alice")
    ∧ ((∀ b ∈ [sampleRB1, sampleRB2],
        (b.Subjects.countP fun s => s.Kind == "ServiceAccount" && s.Name == "alice") ≤ 1)
      ∧ (extractServiceAccountDetails "alice" [sampleRB1, sampleRB2] [sampleCRB1, sampleCRB2]
            sampleRoles).RoleBindings.elems
          = [sampleRB1, sampleRB2].filter fun b =>
              b.Subjects.any fun s => s.Kind == "ServiceAccount" && s.Name == "alice")
    ∧ ((∀ b ∈ [sampleCRB1, sampleCRB2],
        (b.Subjects.countP fun s => s.Kind == "ServiceAccount" && s.Name == "alice") ≤ 1)
      ∧ (extractServiceAccountDetails "alice" [sampleRB1, sampleRB2] [sampleCRB1, sampleCRB2]
            sampleRoles).ClusterRoleBindings.elems
          = [sampleCRB1, sampleCRB2].filter fun b =>
              b.Subjects.any fun s => s.Kind == "ServiceAccount" && s.Name == "alice") :=
  ⟨⟨by decide, (collector_is_filter "alice" [sampleRB1, sampleRB2] [sampleCRB1, sampleCRB2]
      sampleRoles).1 (by decide)⟩,
    ⟨by decide, (collector_is_filter "alice" [sampleRB1, sampleRB2] [sampleCRB1, sampleCRB2]
      sampleRoles).2.1 (by decide)⟩,
    ⟨by decide, (collector_is_filter "alice" [sampleRB1, sampleRB2] [sampleCRB1, sampleCRB2]
      sampleRoles).2.2.1 (by decide)⟩,
    ⟨by decide, (collector_is_filter "alice" [sampleRB1, sampleRB2] [sampleCRB1, sampleCRB2]
      sampleRoles).2.2.2 (by decide)⟩⟩

/-! ## The role resolver -/

/-- C4: the ClusterRoles field is the concatenation, over the returned
ClusterRoleBindings in order, of the clusterRoles input filtered to the roles
whose Name equals the binding's RoleRef.Name. -/
theorem resolver_reference (p : String) (rbs : List RoleBinding)
    (crbs : List ClusterRoleBinding) (crs : List ClusterRole) :
    (extractUserDetails p rbs crbs crs).ClusterRoles.elems
        = (extractUserDetails p rbs crbs crs).ClusterRoleBindings.elems.flatMap
            (fun crb => crs.filter fun cr => cr.Name == crb.RoleRef.Name)
    ∧ (extractServiceAccountDetails p rbs crbs crs).ClusterRoles.elems
        = (extractServiceAccountDetails p rbs crbs crs).ClusterRoleBindings.elems.flatMap
            (fun crb => crs.filter fun cr => cr.Name == crb.RoleRef.Name) :=
  ⟨elems_userClusterRoles p rbs crbs crs, elems_serviceAccountClusterRoles p rbs crbs crs⟩

/-- C5 as stated fails: with two roles of the same name in the collection, one
matched binding resolves to two roles. -/
theorem resolver_length_counterexample :
    ¬ ((extractUserDetails "alice" [] [dupRolesBinding] dupRoles).ClusterRoles.len
        ≤ (extractUserDetails "alice" [] [dupRolesBinding] dupRoles).ClusterRoleBindings.len) := by
  decide

/-- C5 amended: when the clusterRoles have pairwise distinct names, the
resolver yields at most one role per matched ClusterRoleBinding, so the
ClusterRoles field is no longer than the ClusterRoleBindings field. -/
theorem resolver_length_le (p : String) (rbs : List RoleBinding)
    (crbs : List ClusterRoleBinding) (crs : List ClusterRole)
    (h : (crs.map ClusterRole.Name).Nodup) :
    (extractUserDetails p rbs crbs crs).ClusterRoles.len
        ≤ (extractUserDetails p rbs crbs crs).ClusterRoleBindings.len
    ∧ (extractServiceAccountDetails p rbs crbs crs).ClusterRoles.len
        ≤ (extractServiceAccountDetails p rbs crbs crs).ClusterRoleBindings.len := by
  constructor
  · rw [Slice.len, Slice.len, elems_userClusterRoles]
    exact length_resolved_le _ crs h
  · rw [Slice.len, Slice.len, elems_serviceAccountClusterRoles]
    exact length_resolved_le _ crs h

/-- The amended C5 at a concrete input with two distinctly named roles. -/
theorem resolver_length_le_witness :
    (sampleRoles.map ClusterRole.Name).Nodup
    ∧ (extractUserDetails "alice" [sampleRB1] [sampleCRB1, sampleCRB2] sampleRoles).ClusterRoles.len
        ≤ (extractUserDetails "alice" [sampleRB1] [sampleCRB1, sampleCRB2]
            sampleRoles).ClusterRoleBindings.len
    ∧ (extractServiceAccountDetails "alice" [sampleRB1] [sampleCRB1, sampleCRB2]
          sampleRoles).ClusterRoles.len
        ≤ (extractServiceAccountDetails "alice" [sampleRB1] [sampleCRB1, sampleCRB2]
            sampleRoles).ClusterRoleBindings.len :=
  ⟨by decide,
    resolver_length_le "alice" [sampleRB1] [sampleCRB1, sampleCRB2] sampleRoles (by decide)⟩

/-- C6: when the clusterRoles have pairwise distinct names, every role of the
collection occurs in the ClusterRoles field once per entry of the returned
ClusterRoleBindings field whose RoleRef.Name is the role's name. -/
theorem resolver_once_per_binding (p : String) (rbs : List RoleBinding)
    (crbs : List ClusterRoleBinding) (crs : List ClusterRole)
    (h : (crs.map ClusterRole.Name).Nodup) (cr : ClusterRole) (hcr : cr ∈ crs) :
    List.count cr (extractUserDetails p rbs crbs crs).ClusterRoles.elems
        = (extractUserDetails p rbs crbs crs).ClusterRoleBindings.elems.countP
            (fun crb => crb.RoleRef.Name == cr.Name)
    ∧ List.count cr (extractServiceAccountDetails p rbs crbs crs).ClusterRoles.elems
        = (extractServiceAccountDetails p rbs crbs crs).ClusterRoleBindings.elems.countP
            (fun crb => crb.RoleRef.Name == cr.Name) := by
  constructor
  · rw [elems_userClusterRoles]
    exact count_resolved _ crs cr h hcr
  · rw [elems_serviceAccountClusterRoles]
    exact count_resolved _ crs cr h hcr

/-- The statement of C6 at a concrete input in which two matched bindings refer
to the role admin and one to a role that does not exist. -/
theorem resolver_once_per_binding_witness :
    (sampleRoles.map ClusterRole.Name).Nodup
    ∧ (⟨"admin", [⟨["*"], ["*"], ["*"]⟩]⟩ : ClusterRole) ∈ sampleRoles
    ∧ List.count (⟨"admin", [⟨["*"], ["*"], ["*"]⟩]⟩ : ClusterRole)
          (extractUserDetails "alice" [] [sampleCRB1, sampleCRB2, sampleCRB1]
            sampleRoles).ClusterRoles.elems
        = (extractUserDetails "alice" [] [sampleCRB1, sampleCRB2, sampleCRB1]
            sampleRoles).ClusterRoleBindings.elems.countP
            (fun crb => crb.RoleRef.Name == "admin")
    ∧ List.count (⟨"admin", [⟨["*"], ["*"], ["*"]⟩]⟩ : ClusterRole)
          (extractServiceAccountDetails "alice" [] [sampleCRB1, sampleCRB2, sampleCRB1]
            sampleRoles).ClusterRoles.elems
        = (extractServiceAccountDetails "alice" [] [sampleCRB1, sampleCRB2, sampleCRB1]
            sampleRoles).ClusterRoleBindings.elems.countP
            (fun crb => crb.RoleRef.Name == "admin") :=
  ⟨by decide, by decide,
    resolver_once_per_binding "alice" [] [sampleCRB1, sampleCRB2, sampleCRB1] sampleRoles
      (by decide) ⟨"admin", [⟨["*"], ["*"], ["*"]⟩]⟩ (by decide)⟩

/-- C7: dangling role references are skipped: dropping from clusterRoleBindings
every binding whose RoleRef.Name is the Name of no role leaves the ClusterRoles
field as it is, and when no matched binding names an existing role the field
has no elements.  The extractors are total functions into their result record,
so there is no error outcome. -/
theorem resolver_skips_dangling (p : String) (rbs : List RoleBinding)
    (crbs : List ClusterRoleBinding) (crs : List ClusterRole) :
    (extractUserDetails p rbs
          (crbs.filter fun b => crs.any fun cr => cr.Name == b.RoleRef.Name) crs).ClusterRoles
        = (extractUserDetails p rbs crbs crs).ClusterRoles
    ∧ (extractServiceAccountDetails p rbs
          (crbs.filter fun b => crs.any fun cr => cr.Name == b.RoleRef.Name) crs).ClusterRoles
        = (extractServiceAccountDetails p rbs crbs crs).ClusterRoles
    ∧ ((∀ b ∈ (extractUserDetails p rbs crbs crs).ClusterRoleBindings.elems,
          ∀ cr ∈ crs, cr.Name ≠ b.RoleRef.Name) →
        (extractUserDetails p rbs crbs crs).ClusterRoles.elems = [])
    ∧ ((∀ b ∈ (extractServiceAccountDetails p rbs crbs crs).ClusterRoleBindings.elems,
          ∀ cr ∈ crs, cr.Name ≠ b.RoleRef.Name) →
        (extractServiceAccountDetails p rbs crbs crs).ClusterRoles.elems = []) := by
  refine ⟨?_, ?_, fun h => ?_, fun h => ?_⟩
  · rw [extractUserDetails_ClusterRoles, extractUserDetails_ClusterRoles,
      elems_userClusterRoleBindings, elems_userClusterRoleBindings,
      resolved_collected_filter]
  · rw [extractServiceAccountDetails_ClusterRoles, extractServiceAccountDetails_ClusterRoles,
      elems_serviceAccountClusterRoleBindings, elems_serviceAccountClusterRoleBindings,
      resolved_collected_filter]
  · rw [elems_userClusterRoles]
    exact resolved_eq_nil _ crs h
  · rw [elems_serviceAccountClusterRoles]
    exact resolved_eq_nil _ crs h

/-- The statement of C7 at a concrete input whose only matched cluster binding
refers to a role that does not exist. -/
theorem resolver_skips_dangling_witness :
    (∀ b ∈ (extractUserDetails "alice" [sampleRB1] [sampleCRB2] sampleRoles).ClusterRoleBindings.elems,
        ∀ cr ∈ sampleRoles, cr.Name ≠ b.RoleRef.Name)
    ∧ (extractUserDetails "alice" [sampleRB1] [sampleCRB2] sampleRoles).ClusterRoleBindings.elems
        = [sampleCRB2]
    ∧ (extractUserDetails "alice" [sampleRB1] [sampleCRB2] sampleRoles).ClusterRoles.elems = []
    ∧ (∀ b ∈ (extractServiceAccountDetails "alice" [sampleRB1] [sampleCRB2]
          sampleRoles).ClusterRoleBindings.elems,
        ∀ cr ∈ sampleRoles, cr.Name ≠ b.RoleRef.Name)
    ∧ (extractServiceAccountDetails "alice" [sampleRB1] [sampleCRB2]
          sampleRoles).ClusterRoles.elems = [] :=
  ⟨by decide, by decide,
    (resolver_skips_dangling "alice" [sampleRB1] [sampleCRB2] sampleRoles).2.2.1 (by decide),
    by decide,
    (resolver_skips_dangling "alice" [sampleRB1] [sampleCRB2] sampleRoles).2.2.2 (by decide)⟩

/-! ## Lookups that find nothing -/

/-- C8: when no subject of any RoleBinding or ClusterRoleBinding has both kind
"User" and name `p`, `extractUserDetails p` returns no bindings and no roles
and `extractUserRoles p` no role names; when none has both kind
"ServiceAccount" and name `p`, `extractServiceAccountDetails p` returns no
bindings and no roles. -/
theorem absent_principal (p : String) (rbs : List RoleBinding)
    (crbs : List ClusterRoleBinding) (crs : List ClusterRole) :
    ((∀ b ∈ rbs, ∀ s ∈ b.Subjects, ¬ (s.Kind = "User" ∧ s.Name = p)) →
      (∀ b ∈ crbs, ∀ s ∈ b.Subjects, ¬ (s.Kind = "User" ∧ s.Name = p)) →
        (extractUserDetails p rbs crbs crs).RoleBindings.elems = []
        ∧ (extractUserDetails p rbs crbs crs).ClusterRoleBindings.elems = []
        ∧ (extractUserDetails p rbs crbs crs).ClusterRoles.elems = []
        ∧ (extractUserRoles p rbs crbs).elems = [])
    ∧ ((∀ b ∈ rbs, ∀ s ∈ b.Subjects, ¬ (s.Kind = "ServiceAccount" ∧ s.Name = p)) →
      (∀ b ∈ crbs, ∀ s ∈ b.Subjects, ¬ (s.Kind = "ServiceAccount" ∧ s.Name = p)) →
        (extractServiceAccountDetails p rbs crbs crs).RoleBindings.elems = []
        ∧ (extractServiceAccountDetails p rbs crbs crs).ClusterRoleBindings.elems = []
        ∧ (extractServiceAccountDetails p rbs crbs crs).ClusterRoles.elems = []) :=
  ⟨fun hrb hcrb => user_results_empty p rbs crbs crs
      (collected_eq_nil UserKind p RoleBinding.Subjects rbs hrb)
      (collected_eq_nil UserKind p ClusterRoleBinding.Subjects crbs hcrb),
    fun hrb hcrb => serviceAccount_results_empty p rbs crbs crs
      (collected_eq_nil ServiceAccountKind p RoleBinding.Subjects rbs hrb)
      (collected_eq_nil ServiceAccountKind p ClusterRoleBinding.Subjects crbs hcrb)⟩

/-- The statement of C8 at a concrete input that nowhere lists build-bot. -/
theorem absent_principal_witness :
    ((∀ b ∈ [sampleRB1, sampleRB2], ∀ s ∈ b.Subjects, ¬ (s.Kind = "User" ∧ s.Name = "build-bot"))
      ∧ (∀ b ∈ [sampleCRB1, sampleCRB2], ∀ s ∈ b.Subjects,
          ¬ (s.Kind = "User" ∧ s.Name = "build-bot"))
      ∧ (extractUserDetails "build-bot" [sampleRB1, sampleRB2] [sampleCRB1, sampleCRB2]
            sampleRoles).RoleBindings.elems = []
      ∧ (extractUserDetails "build-bot" [sampleRB1, sampleRB2] [sampleCRB1, sampleCRB2]
            sampleRoles).ClusterRoleBindings.elems = []
      ∧ (extractUserDetails "build-bot" [sampleRB1, sampleRB2] [sampleCRB1, sampleCRB2]
            sampleRoles).ClusterRoles.elems = []
      ∧ (extractUserRoles "build-bot" [sampleRB1, sampleRB2] [sampleCRB1, sampleCRB2]).elems = [])
    ∧ ((∀ b ∈ [sampleRB1, sampleRB2], ∀ s ∈ b.Subjects,
          ¬ (s.Kind = "ServiceAccount" ∧ s.Name = "build-bot"))
      ∧ (∀ b ∈ [sampleCRB1, sampleCRB2], ∀ s ∈ b.Subjects,
          ¬ (s.Kind = "ServiceAccount" ∧ s.Name = "build-bot"))
      ∧ (extractServiceAccountDetails "build-bot" [sampleRB1, sampleRB2]
            [sampleCRB1, sampleCRB2] sampleRoles).RoleBindings.elems = []
      ∧ (extractServiceAccountDetails "build-bot" [sampleRB1, sampleRB2]
            [sampleCRB1, sampleCRB2] sampleRoles).ClusterRoleBindings.elems = []
      ∧ (extractServiceAccountDetails "build-bot" [sampleRB1, sampleRB2]
            [sampleCRB1, sampleCRB2] sampleRoles).ClusterRoles.elems = []) :=
  ⟨⟨by decide, by decide,
      (absent_principal "build-bot" [sampleRB1, sampleRB2] [sampleCRB1, sampleCRB2]
        sampleRoles).1 (by decide) (by decide)⟩,
    ⟨by decide, by decide,
      (absent_principal "build-bot" [sampleRB1, sampleRB2] [sampleCRB1, sampleCRB2]
        sampleRoles).2 (by decide) (by decide)⟩⟩

/-- C9 as stated fails: a lookup for the empty name selects a binding whose
subject is a user with an empty name. -/
theorem empty_name_counterexample :
    ¬ ((extractUserDetails "" [namelessUserBinding] [] []).RoleBindings.elems = []) := by
  decide

/-- C9 amended: a lookup for the empty name returns only empty sequences when
no subject of the extractor's kind has an empty name, and a lookup for a
non-empty name returns only empty sequences when every subject has an empty
name. -/
theorem empty_name_lookup (rbs : List RoleBinding) (crbs : List ClusterRoleBinding)
    (crs : List ClusterRole) :
    ((∀ b ∈ rbs, ∀ s ∈ b.Subjects, ¬ (s.Kind = "User" ∧ s.Name = "")) →
      (∀ b ∈ crbs, ∀ s ∈ b.Subjects, ¬ (s.Kind = "User" ∧ s.Name = "")) →
        (extractUserDetails "" rbs crbs crs).RoleBindings.elems = []
        ∧ (extractUserDetails "" rbs crbs crs).ClusterRoleBindings.elems = []
        ∧ (extractUserDetails "" rbs crbs crs).ClusterRoles.elems = []
        ∧ (extractUserRoles "" rbs crbs).elems = [])
    ∧ ((∀ b ∈ rbs, ∀ s ∈ b.Subjects, ¬ (s.Kind = "ServiceAccount" ∧ s.Name = "")) →
      (∀ b ∈ crbs, ∀ s ∈ b.Subjects, ¬ (s.Kind = "ServiceAccount" ∧ s.Name = "")) →
        (extractServiceAccountDetails "" rbs crbs crs).RoleBindings.elems = []
        ∧ (extractServiceAccountDetails "" rbs crbs crs).ClusterRoleBindings.elems = []
        ∧ (extractServiceAccountDetails "" rbs crbs crs).ClusterRoles.elems = [])
    ∧ (∀ p : String, p ≠ "" →
      (∀ b ∈ rbs, ∀ s ∈ b.Subjects, s.Name = "") →
      (∀ b ∈ crbs, ∀ s ∈ b.Subjects, s.Name = "") →
        ((extractUserDetails p rbs crbs crs).RoleBindings.elems = []
          ∧ (extractUserDetails p rbs crbs crs).ClusterRoleBindings.elems = []
          ∧ (extractUserDetails p rbs crbs crs).ClusterRoles.elems = []
          ∧ (extractUserRoles p rbs crbs).elems = [])
        ∧ (extractServiceAccountDetails p rbs crbs crs).RoleBindings.elems = []
        ∧ (extractServiceAccountDetails p rbs crbs crs).ClusterRoleBindings.elems = []
        ∧ (extractServiceAccountDetails p rbs crbs crs).ClusterRoles.elems = []) := by
  refine ⟨fun hrb hcrb => ?_, fun hrb hcrb => ?_, fun p hp hrb hcrb => ⟨?_, ?_⟩⟩
  · exact user_results_empty "" rbs crbs crs
      (collected_eq_nil UserKind "" RoleBinding.Subjects rbs hrb)
      (collected_eq_nil UserKind "" ClusterRoleBinding.Subjects crbs hcrb)
  · exact serviceAccount_results_empty "" rbs crbs crs
      (collected_eq_nil ServiceAccountKind "" RoleBinding.Subjects rbs hrb)
      (collected_eq_nil ServiceAccountKind "" ClusterRoleBinding.Subjects crbs hcrb)
  · exact user_results_empty p rbs crbs crs
      (collected_eq_nil UserKind p RoleBinding.Subjects rbs
        fun b hb s hs hk => hp (hk.2.symm.trans (hrb b hb s hs)))
      (collected_eq_nil UserKind p ClusterRoleBinding.Subjects crbs
        fun b hb s hs hk => hp (hk.2.symm.trans (hcrb b hb s hs)))
  · exact serviceAccount_results_empty p rbs crbs crs
      (collected_eq_nil ServiceAccountKind p RoleBinding.Subjects rbs
        fun b hb s hs hk => hp (hk.2.symm.trans (hrb b hb s hs)))
      (collected_eq_nil ServiceAccountKind p ClusterRoleBinding.Subjects crbs
        fun b hb s hs hk => hp (hk.2.symm.trans (hcrb b hb s hs)))

/-- The amended C9 at concrete inputs: subjects that all carry a name under a
lookup for the empty name, and a nameless subject under a lookup for alice. -/
theorem empty_name_lookup_witness :
    ((∀ b ∈ [sampleRB1, sampleRB2], ∀ s ∈ b.Subjects, ¬ (s.Kind = "User" ∧ s.Name = ""))
      ∧ (∀ b ∈ [sampleCRB1], ∀ s ∈ b.Subjects, ¬ (s.Kind = "User" ∧ s.Name = ""))
      ∧ (extractUserDetails "" [sampleRB1, sampleRB2] [sampleCRB1] sampleRoles).RoleBindings.elems
          = []
      ∧ (extractUserDetails "" [sampleRB1, sampleRB2] [sampleCRB1]
            sampleRoles).ClusterRoleBindings.elems = []
      ∧ (extractUserDetails "" [sampleRB1, sampleRB2] [sampleCRB1] sampleRoles).ClusterRoles.elems
          = []
      ∧ (extractUserRoles "" [sampleRB1, sampleRB2] [sampleCRB1]).elems = [])
    ∧ ((∀ b ∈ [sampleRB1, sampleRB2], ∀ s ∈ b.Subjects,
          ¬ (s.Kind = "ServiceAccount" ∧ s.Name = ""))
      ∧ (∀ b ∈ [sampleCRB1], ∀ s ∈ b.Subjects, ¬ (s.Kind = "ServiceAccount" ∧ s.Name = ""))
      ∧ (extractServiceAccountDetails "" [sampleRB1, sampleRB2] [sampleCRB1]
            sampleRoles).RoleBindings.elems = []
      ∧ (extractServiceAccountDetails "" [sampleRB1, sampleRB2] [sampleCRB1]
            sampleRoles).ClusterRoleBindings.elems = []
      ∧ (extractServiceAccountDetails "" [sampleRB1, sampleRB2] [sampleCRB1]
            sampleRoles).ClusterRoles.elems = [])
    ∧ ("alice" ≠ ""
      ∧ (∀ b ∈ [namelessUserBinding], ∀ s ∈ b.Subjects, s.Name = "")
      ∧ (∀ b ∈ ([] : List ClusterRoleBinding), ∀ s ∈ b.Subjects, s.Name = "")
      ∧ (extractUserDetails "alice" [namelessUserBinding] [] sampleRoles).RoleBindings.elems = []
      ∧ (extractUserRoles "alice" [namelessUserBinding] []).elems = []
      ∧ (extractServiceAccountDetails "alice" [namelessUserBinding] []
            sampleRoles).RoleBindings.elems = []) :=
  ⟨⟨by decide, by decide,
      (empty_name_lookup [sampleRB1, sampleRB2] [sampleCRB1] sampleRoles).1
        (by decide) (by decide)⟩,
    ⟨by decide, by decide,
      (empty_name_lookup [sampleRB1, sampleRB2] [sampleCRB1] sampleRoles).2.1
        (by decide) (by decide)⟩,
    ⟨by decide, by decide, by decide,
      ((empty_name_lookup [namelessUserBinding] [] sampleRoles).2.2 "alice"
        (by decide) (by decide) (by decide)).1.1,
      ((empty_name_lookup [namelessUserBinding] [] sampleRoles).2.2 "alice"
        (by decide) (by decide) (by decide)).1.2.2.2,
      ((empty_name_lookup [namelessUserBinding] [] sampleRoles).2.2 "alice"
        (by decide) (by decide) (by decide)).2.1⟩⟩

/-- C10: kind discrimination: when every subject named `x` has a kind other
than "User", `extractUserDetails x` and `extractUserRoles x` return only empty
sequences; when every subject named `x` has a kind other than
"ServiceAccount", so does `extractServiceAccountDetails x`. -/
theorem kind_discrimination (x : String) (rbs : List RoleBinding)
    (crbs : List ClusterRoleBinding) (crs : List ClusterRole) :
    ((∀ b ∈ rbs, ∀ s ∈ b.Subjects, s.Name = x → s.Kind ≠ "User") →
      (∀ b ∈ crbs, ∀ s ∈ b.Subjects, s.Name = x → s.Kind ≠ "User") →
        (extractUserDetails x rbs crbs crs).RoleBindings.elems = []
        ∧ (extractUserDetails x rbs crbs crs).ClusterRoleBindings.elems = []
        ∧ (extractUserDetails x rbs crbs crs).ClusterRoles.elems = []
        ∧ (extractUserRoles x rbs crbs).elems = [])
    ∧ ((∀ b ∈ rbs, ∀ s ∈ b.Subjects, s.Name = x → s.Kind ≠ "ServiceAccount") →
      (∀ b ∈ crbs, ∀ s ∈ b.Subjects, s.Name = x → s.Kind ≠ "ServiceAccount") →
        (extractServiceAccountDetails x rbs crbs crs).RoleBindings.elems = []
        ∧ (extractServiceAccountDetails x rbs crbs crs).ClusterRoleBindings.elems = []
        ∧ (extractServiceAccountDetails x rbs crbs crs).ClusterRoles.elems = []) :=
  ⟨fun hrb hcrb => user_results_empty x rbs crbs crs
      (collected_eq_nil UserKind x RoleBinding.Subjects rbs
        fun b hb s hs hk => hrb b hb s hs hk.2 hk.1)
      (collected_eq_nil UserKind x ClusterRoleBinding.Subjects crbs
        fun b hb s hs hk => hcrb b hb s hs hk.2 hk.1),
    fun hrb hcrb => serviceAccount_results_empty x rbs crbs crs
      (collected_eq_nil ServiceAccountKind x RoleBinding.Subjects rbs
        fun b hb s hs hk => hrb b hb s hs hk.2 hk.1)
      (collected_eq_nil ServiceAccountKind x ClusterRoleBinding.Subjects crbs
        fun b hb s hs hk => hcrb b hb s hs hk.2 hk.1)⟩

/-- The statement of C10 at a concrete input that lists alice as a service
account only and bob as a user only. -/
theorem kind_discrimination_witness :
    ((∀ b ∈ [mixedKindRB], ∀ s ∈ b.Subjects, s.Name = "alice" → s.Kind ≠ "User")
      ∧ (∀ b ∈ [mixedKindCRB], ∀ s ∈ b.Subjects, s.Name = "alice" → s.Kind ≠ "User")
      ∧ (extractUserDetails "alice" [mixedKindRB] [mixedKindCRB] sampleRoles).RoleBindings.elems
          = []
      ∧ (extractUserDetails "alice" [mixedKindRB] [mixedKindCRB]
            sampleRoles).ClusterRoleBindings.elems = []
      ∧ (extractUserDetails "alice" [mixedKindRB] [mixedKindCRB] sampleRoles).ClusterRoles.elems
          = []
      ∧ (extractUserRoles "alice" [mixedKindRB] [mixedKindCRB]).elems = [])
    ∧ ((∀ b ∈ [mixedKindRB], ∀ s ∈ b.Subjects, s.Name = "bob" → s.Kind ≠ "ServiceAccount")
      ∧ (∀ b ∈ [mixedKindCRB], ∀ s ∈ b.Subjects, s.Name = "bob" → s.Kind ≠ "ServiceAccount")
      ∧ (extractServiceAccountDetails "bob" [mixedKindRB] [mixedKindCRB]
            sampleRoles).RoleBindings.elems = []
      ∧ (extractServiceAccountDetails "bob" [mixedKindRB] [mixedKindCRB]
            sampleRoles).ClusterRoleBindings.elems = []
      ∧ (extractServiceAccountDetails "bob" [mixedKindRB] [mixedKindCRB]
            sampleRoles).ClusterRoles.elems = []) :=
  ⟨⟨by decide, by decide,
      (kind_discrimination "alice" [mixedKindRB] [mixedKindCRB] sampleRoles).1
        (by decide) (by decide)⟩,
    ⟨by decide, by decide,
      (kind_discrimination "bob" [mixedKindRB] [mixedKindCRB] sampleRoles).2
        (by decide) (by decide)⟩⟩

/-! ## The assemblers -/

/-- C11: the role-name view agrees with the detail view: `extractUserRoles`
yields the RoleRef.Name of every entry of the RoleBindings field of
`extractUserDetails`, in order, followed by the RoleRef.Name of every entry of
its ClusterRoleBindings field, whatever the RoleRef.Kind. -/
theorem roleNames_agree_with_details (u : String) (rbs : List RoleBinding)
    (crbs : List ClusterRoleBinding) (crs : List ClusterRole) :
    (extractUserRoles u rbs crbs).elems
      = (extractUserDetails u rbs crbs crs).RoleBindings.elems.map (fun rb => rb.RoleRef.Name)
        ++ (extractUserDetails u rbs crbs crs).ClusterRoleBindings.elems.map
            (fun crb => crb.RoleRef.Name) := by
  rw [elems_userRoles, elems_userRoleBindings, elems_userClusterRoleBindings]

/-- C12: the end-to-end scenario: for user alice with roleBindings [RB1, RB2],
clusterRoleBindings [CRB1] and clusterRoles [cluster-admin, viewer],
`extractUserDetails` returns RoleBindings [RB1], ClusterRoleBindings [CRB1] and
ClusterRoles [cluster-admin], and `extractUserRoles` returns
["edit", "cluster-admin"]. -/
theorem scenario_alice :
    (extractUserDetails "alice" [scenarioRB1, scenarioRB2] [scenarioCRB1]
        [scenarioClusterAdmin, scenarioViewer]).RoleBindings.elems = [scenarioRB1]
    ∧ (extractUserDetails "alice" [scenarioRB1, scenarioRB2] [scenarioCRB1]
        [scenarioClusterAdmin, scenarioViewer]).ClusterRoleBindings.elems = [scenarioCRB1]
    ∧ (extractUserDetails "alice" [scenarioRB1, scenarioRB2] [scenarioCRB1]
        [scenarioClusterAdmin, scenarioViewer]).ClusterRoles.elems = [scenarioClusterAdmin]
    ∧ (extractUserRoles "alice" [scenarioRB1, scenarioRB2] [scenarioCRB1]).elems
        = ["edit", "cluster-admin"] := by
  decide

/-- C13 as stated fails: for a principal that nothing matches, every returned
slice is the nil slice and not an allocated empty one. -/
theorem empty_not_null_counterexample :
    ¬ ((extractUserDetails "build-bot" [sampleRB1, sampleRB2] [sampleCRB1]
          sampleRoles).RoleBindings ≠ Slice.nil
      ∨ (extractUserDetails "build-bot" [sampleRB1, sampleRB2] [sampleCRB1]
          sampleRoles).ClusterRoleBindings ≠ Slice.nil
      ∨ (extractUserDetails "build-bot" [sampleRB1, sampleRB2] [sampleCRB1]
          sampleRoles).ClusterRoles ≠ Slice.nil
      ∨ extractUserRoles "build-bot" [sampleRB1, sampleRB2] [sampleCRB1] ≠ Slice.nil
      ∨ (extractServiceAccountDetails "build-bot" [sampleRB1, sampleRB2] [sampleCRB1]
          sampleRoles).RoleBindings ≠ Slice.nil
      ∨ (extractServiceAccountDetails "build-bot" [sampleRB1, sampleRB2] [sampleCRB1]
          sampleRoles).ClusterRoleBindings ≠ Slice.nil
      ∨ (extractServiceAccountDetails "build-bot" [sampleRB1, sampleRB2] [sampleCRB1]
          sampleRoles).ClusterRoles ≠ Slice.nil) := by
  decide

/-- C13 amended: when nothing matches the principal, the RoleBindings,
ClusterRoleBindings and ClusterRoles fields and the slice of `extractUserRoles`
have length zero and are the nil slice: the variables are declared with `var`
and never appended to. -/
theorem no_match_yields_nil (p : String) (rbs : List RoleBinding)
    (crbs : List ClusterRoleBinding) (crs : List ClusterRole) :
    ((∀ b ∈ rbs, ∀ s ∈ b.Subjects, ¬ (s.Kind = "User" ∧ s.Name = p)) →
      (∀ b ∈ crbs, ∀ s ∈ b.Subjects, ¬ (s.Kind = "User" ∧ s.Name = p)) →
        ((extractUserDetails p rbs crbs crs).RoleBindings = Slice.nil
          ∧ (extractUserDetails p rbs crbs crs).ClusterRoleBindings = Slice.nil
          ∧ (extractUserDetails p rbs crbs crs).ClusterRoles = Slice.nil
          ∧ extractUserRoles p rbs crbs = Slice.nil)
        ∧ (extractUserDetails p rbs crbs crs).RoleBindings.len = 0
        ∧ (extractUserDetails p rbs crbs crs).ClusterRoleBindings.len = 0
        ∧ (extractUserDetails p rbs crbs crs).ClusterRoles.len = 0
        ∧ (extractUserRoles p rbs crbs).len = 0)
    ∧ ((∀ b ∈ rbs, ∀ s ∈ b.Subjects, ¬ (s.Kind = "ServiceAccount" ∧ s.Name = p)) →
      (∀ b ∈ crbs, ∀ s ∈ b.Subjects, ¬ (s.Kind = "ServiceAccount" ∧ s.Name = p)) →
        ((extractServiceAccountDetails p rbs crbs crs).RoleBindings = Slice.nil
          ∧ (extractServiceAccountDetails p rbs crbs crs).ClusterRoleBindings = Slice.nil
          ∧ (extractServiceAccountDetails p rbs crbs crs).ClusterRoles = Slice.nil)
        ∧ (extractServiceAccountDetails p rbs crbs crs).RoleBindings.len = 0
        ∧ (extractServiceAccountDetails p rbs crbs crs).ClusterRoleBindings.len = 0
        ∧ (extractServiceAccountDetails p rbs crbs crs).ClusterRoles.len = 0) := by
  constructor
  · intro hrb hcrb
    have h := user_results_nil p rbs crbs crs
      (collected_eq_nil UserKind p RoleBinding.Subjects rbs hrb)
      (collected_eq_nil UserKind p ClusterRoleBinding.Subjects crbs hcrb)
    refine ⟨h, ?_, ?_, ?_, ?_⟩
    · rw [h.1]; rfl
    · rw [h.2.1]; rfl
    · rw [h.2.2.1]; rfl
    · rw [h.2.2.2]; rfl
  · intro hrb hcrb
    have h := serviceAccount_results_nil p rbs crbs crs
      (collected_eq_nil ServiceAccountKind p RoleBinding.Subjects rbs hrb)
      (collected_eq_nil ServiceAccountKind p ClusterRoleBinding.Subjects crbs hcrb)
    refine ⟨h, ?_, ?_, ?_⟩
    · rw [h.1]; rfl
    · rw [h.2.1]; rfl
    · rw [h.2.2]; rfl

/-- The amended C13 at a concrete input that nowhere lists build-bot. -/
theorem no_match_yields_nil_witness :
    ((∀ b ∈ [sampleRB1, sampleRB2], ∀ s ∈ b.Subjects,
          ¬ (s.Kind = "User" ∧ s.Name = "build-bot"))
      ∧ (∀ b ∈ [sampleCRB1], ∀ s ∈ b.Subjects, ¬ (s.Kind = "User" ∧ s.Name = "build-bot"))
      ∧ (extractUserDetails "build-bot" [sampleRB1, sampleRB2] [sampleCRB1]
            sampleRoles).RoleBindings = Slice.nil
      ∧ extractUserRoles "build-bot" [sampleRB1, sampleRB2] [sampleCRB1] = Slice.nil)
    ∧ ((∀ b ∈ [sampleRB1, sampleRB2], ∀ s ∈ b.Subjects,
          ¬ (s.Kind = "ServiceAccount" ∧ s.Name = "build-bot"))
      ∧ (∀ b ∈ [sampleCRB1], ∀ s ∈ b.Subjects,
          ¬ (s.Kind = "ServiceAccount" ∧ s.Name = "build-bot"))
      ∧ (extractServiceAccountDetails "build-bot" [sampleRB1, sampleRB2] [sampleCRB1]
            sampleRoles).ClusterRoles = Slice.nil) :=
  ⟨⟨by decide, by decide,
      ((no_match_yields_nil "build-bot" [sampleRB1, sampleRB2] [sampleCRB1] sampleRoles).1
        (by decide) (by decide)).1.1,
      ((no_match_yields_nil "build-bot" [sampleRB1, sampleRB2] [sampleCRB1] sampleRoles).1
        (by decide) (by decide)).1.2.2.2⟩,
    ⟨by decide, by decide,
      ((no_match_yields_nil "build-bot" [sampleRB1, sampleRB2] [sampleCRB1] sampleRoles).2
        (by decide) (by decide)).1.2.2⟩⟩

/-- C14: the namespaced bindings are never resolved to roles: the
ClusterRoleBindings and ClusterRoles fields are the same for any two
roleBindings inputs. -/
theorem roleBindings_do_not_reach_roles (p : String) (rbs rbs' : List RoleBinding)
    (crbs : List ClusterRoleBinding) (crs : List ClusterRole) :
    (extractUserDetails p rbs crbs crs).ClusterRoleBindings
        = (extractUserDetails p rbs' crbs crs).ClusterRoleBindings
    ∧ (extractUserDetails p rbs crbs crs).ClusterRoles
        = (extractUserDetails p rbs' crbs crs).ClusterRoles
    ∧ (extractServiceAccountDetails p rbs crbs crs).ClusterRoleBindings
        = (extractServiceAccountDetails p rbs' crbs crs).ClusterRoleBindings
    ∧ (extractServiceAccountDetails p rbs crbs crs).ClusterRoles
        = (extractServiceAccountDetails p rbs' crbs crs).ClusterRoles := by
  refine ⟨?_, ?_, ?_, ?_⟩
  · rw [extractUserDetails_ClusterRoleBindings, extractUserDetails_ClusterRoleBindings]
  · rw [extractUserDetails_ClusterRoles, extractUserDetails_ClusterRoles,
      elems_userClusterRoleBindings, elems_userClusterRoleBindings]
  · rw [extractServiceAccountDetails_ClusterRoleBindings,
      extractServiceAccountDetails_ClusterRoleBindings]
  · rw [extractServiceAccountDetails_ClusterRoles, extractServiceAccountDetails_ClusterRoles,
      elems_serviceAccountClusterRoleBindings, elems_serviceAccountClusterRoleBindings]

/-- C16: the principal name is echoed verbatim: the UserName field of
`extractUserDetails n` and the ServiceAccountName field of
`extractServiceAccountDetails n` are `n`, whatever matched. -/
theorem principal_name_echoed (n : String) (rbs : List RoleBinding)
    (crbs : List ClusterRoleBinding) (crs : List ClusterRole) :
    (extractUserDetails n rbs crbs crs).UserName = n
    ∧ (extractServiceAccountDetails n rbs crbs crs).ServiceAccountName = n :=
  ⟨rfl, rfl⟩

/-! ## The two resolvers compared -/

/-- C17: the service-account resolver is the user resolver up to the kind tag:
with swap exchanging "User" and "ServiceAccount" in every subject of every
binding, `extractServiceAccountDetails n` has the swapped RoleBindings and
ClusterRoleBindings of `extractUserDetails n` on the swapped input, and the
same ClusterRoles. -/
theorem serviceAccount_is_swapped_user (n : String) (rbs : List RoleBinding)
    (crbs : List ClusterRoleBinding) (crs : List ClusterRole) :
    (extractServiceAccountDetails n rbs crbs crs).RoleBindings
        = Slice.map swapRoleBinding
            (extractUserDetails n (rbs.map swapRoleBinding)
              (crbs.map swapClusterRoleBinding) crs).RoleBindings
    ∧ (extractServiceAccountDetails n rbs crbs crs).ClusterRoleBindings
        = Slice.map swapClusterRoleBinding
            (extractUserDetails n (rbs.map swapRoleBinding)
              (crbs.map swapClusterRoleBinding) crs).ClusterRoleBindings
    ∧ (extractServiceAccountDetails n rbs crbs crs).ClusterRoles
        = (extractUserDetails n (rbs.map swapRoleBinding)
              (crbs.map swapClusterRoleBinding) crs).ClusterRoles := by
  have hrb := collected_map UserKind ServiceAccountKind n RoleBinding.Subjects
    swapRoleBinding swapSubject (swapSubject_test n) (fun _ => rfl) rbs
  have hcrb := collected_map UserKind ServiceAccountKind n ClusterRoleBinding.Subjects
    swapClusterRoleBinding swapSubject (swapSubject_test n) (fun _ => rfl) crbs
  refine ⟨?_, ?_, ?_⟩
  · rw [extractServiceAccountDetails_RoleBindings, extractUserDetails_RoleBindings, hrb,
      Slice.map_extend, List.map_map]
    have hid : swapRoleBinding ∘ swapRoleBinding = id :=
      funext swapRoleBinding_swapRoleBinding
    rw [hid, List.map_id]
    rfl
  · rw [extractServiceAccountDetails_ClusterRoleBindings,
      extractUserDetails_ClusterRoleBindings, hcrb, Slice.map_extend, List.map_map]
    have hid : swapClusterRoleBinding ∘ swapClusterRoleBinding = id :=
      funext swapClusterRoleBinding_swapClusterRoleBinding
    rw [hid, List.map_id]
    rfl
  · rw [extractServiceAccountDetails_ClusterRoles, extractUserDetails_ClusterRoles,
      elems_serviceAccountClusterRoleBindings, elems_userClusterRoleBindings, hcrb,
      resolved_map swapClusterRoleBinding (fun _ => rfl)]

/-- C18: service-account matching ignores namespaces: two inputs that differ
only in the Namespace of subjects and of RoleBindings make
`extractServiceAccountDetails` select the same bindings, up to those
namespaces, and resolve the same ClusterRoles; a binding that lists the name
as a service account in two namespaces is selected for both subjects. -/
theorem serviceAccount_ignores_namespace (n : String) (rbs rbs' : List RoleBinding)
    (crbs crbs' : List ClusterRoleBinding) (crs : List ClusterRole)
    (hrb : rbs.map forgetRoleBindingNamespaces = rbs'.map forgetRoleBindingNamespaces)
    (hcrb : crbs.map forgetClusterRoleBindingNamespaces
      = crbs'.map forgetClusterRoleBindingNamespaces) :
    (extractServiceAccountDetails n rbs crbs crs).RoleBindings.elems.map
          forgetRoleBindingNamespaces
        = (extractServiceAccountDetails n rbs' crbs' crs).RoleBindings.elems.map
            forgetRoleBindingNamespaces
    ∧ (extractServiceAccountDetails n rbs crbs crs).ClusterRoleBindings.elems.map
          forgetClusterRoleBindingNamespaces
        = (extractServiceAccountDetails n rbs' crbs' crs).ClusterRoleBindings.elems.map
            forgetClusterRoleBindingNamespaces
    ∧ (extractServiceAccountDetails n rbs crbs crs).ClusterRoles
        = (extractServiceAccountDetails n rbs' crbs' crs).ClusterRoles
    ∧ (∀ (b : RoleBinding) (ns₁ ns₂ : String),
        b.Subjects = [⟨"ServiceAccount", n, ns₁⟩, ⟨"ServiceAccount", n, ns₂⟩] →
          (extractServiceAccountDetails n [b] crbs crs).RoleBindings.elems = [b, b]) := by
  have hcoll : ∀ l : List ClusterRoleBinding,
      (collected ServiceAccountKind n ClusterRoleBinding.Subjects l).map
          forgetClusterRoleBindingNamespaces
        = collected ServiceAccountKind n ClusterRoleBinding.Subjects
            (l.map forgetClusterRoleBindingNamespaces) := fun l =>
    (collected_map ServiceAccountKind ServiceAccountKind n ClusterRoleBinding.Subjects
      forgetClusterRoleBindingNamespaces forgetSubjectNamespace
      (forgetSubjectNamespace_test ServiceAccountKind n) (fun _ => rfl) l).symm
  have hcollRB : ∀ l : List RoleBinding,
      (collected ServiceAccountKind n RoleBinding.Subjects l).map forgetRoleBindingNamespaces
        = collected ServiceAccountKind n RoleBinding.Subjects
            (l.map forgetRoleBindingNamespaces) := fun l =>
    (collected_map ServiceAccountKind ServiceAccountKind n RoleBinding.Subjects
      forgetRoleBindingNamespaces forgetSubjectNamespace
      (forgetSubjectNamespace_test ServiceAccountKind n) (fun _ => rfl) l).symm
  refine ⟨?_, ?_, ?_, ?_⟩
  · rw [elems_serviceAccountRoleBindings, elems_serviceAccountRoleBindings, hcollRB,
      hcollRB, hrb]
  · rw [elems_serviceAccountClusterRoleBindings, elems_serviceAccountClusterRoleBindings,
      hcoll, hcoll, hcrb]
  · rw [extractServiceAccountDetails_ClusterRoles, extractServiceAccountDetails_ClusterRoles,
      elems_serviceAccountClusterRoleBindings, elems_serviceAccountClusterRoleBindings,
      ← resolved_map forgetClusterRoleBindingNamespaces (fun _ => rfl)
        (collected ServiceAccountKind n ClusterRoleBinding.Subjects crbs),
      ← resolved_map forgetClusterRoleBindingNamespaces (fun _ => rfl)
        (collected ServiceAccountKind n ClusterRoleBinding.Subjects crbs'),
      hcoll, hcoll, hcrb]
  · intro b ns₁ ns₂ hb
    rw [elems_serviceAccountRoleBindings]
    simp [collected, hb, ServiceAccountKind]

/-- The statement of C18 at a concrete pair of inputs that differ in
namespaces only. -/
theorem serviceAccount_ignores_namespace_witness :
    [sampleRB1, sampleRB2].map forgetRoleBindingNamespaces
        = [sampleRB1Moved, sampleRB2].map forgetRoleBindingNamespaces
    ∧ [sampleCRB1, sampleCRB2].map forgetClusterRoleBindingNamespaces
        = [sampleCRB1Moved, sampleCRB2].map forgetClusterRoleBindingNamespaces
    ∧ (extractServiceAccountDetails "alice" [sampleRB1, sampleRB2] [sampleCRB1, sampleCRB2]
          sampleRoles).RoleBindings.elems.map forgetRoleBindingNamespaces
        = (extractServiceAccountDetails "alice" [sampleRB1Moved, sampleRB2]
            [sampleCRB1Moved, sampleCRB2] sampleRoles).RoleBindings.elems.map
            forgetRoleBindingNamespaces
    ∧ (extractServiceAccountDetails "alice" [sampleRB1, sampleRB2] [sampleCRB1, sampleCRB2]
          sampleRoles).ClusterRoles
        = (extractServiceAccountDetails "alice" [sampleRB1Moved, sampleRB2]
            [sampleCRB1Moved, sampleCRB2] sampleRoles).ClusterRoles
    ∧ (extractServiceAccountDetails "alice" [sampleRB1, sampleRB2] [sampleCRB1, sampleCRB2]
          sampleRoles).RoleBindings.elems = [sampleRB1]
    ∧ (extractServiceAccountDetails "alice" [sampleRB1Moved, sampleRB2]
          [sampleCRB1Moved, sampleCRB2] sampleRoles).RoleBindings.elems = [sampleRB1Moved] :=
  ⟨by decide, by decide,
    (serviceAccount_ignores_namespace "alice" [sampleRB1, sampleRB2]
      [sampleRB1Moved, sampleRB2] [sampleCRB1, sampleCRB2] [sampleCRB1Moved, sampleCRB2]
      sampleRoles (by decide) (by decide)).1,
    (serviceAccount_ignores_namespace "alice" [sampleRB1, sampleRB2]
      [sampleRB1Moved, sampleRB2] [sampleCRB1, sampleCRB2] [sampleCRB1Moved, sampleCRB2]
      sampleRoles (by decide) (by decide)).2.2.1,
    by decide, by decide⟩

/-! ## Order of the resolved roles -/

/-- C15 as stated fails: with the bindings of alice referring to view and then
to admin, view precedes admin in the resolved roles although admin precedes
view in clusterRoles. -/
theorem resolved_roles_order_counterexample :
    ¬ (∀ a ∈ (extractUserDetails "alice" [] [sampleViewCRB, sampleCRB1]
            sampleRoles).ClusterRoles.elems,
        ∀ b ∈ (extractUserDetails "alice" [] [sampleViewCRB, sampleCRB1]
            sampleRoles).ClusterRoles.elems,
          List.indexOf a (extractUserDetails "alice" [] [sampleViewCRB, sampleCRB1]
              sampleRoles).ClusterRoles.elems
            < List.indexOf b (extractUserDetails "alice" [] [sampleViewCRB, sampleCRB1]
              sampleRoles).ClusterRoles.elems →
          List.indexOf a sampleRoles < List.indexOf b sampleRoles) := by
  decide

/-- C15 amended: the resolved roles follow the order of the returned
ClusterRoleBindings first and the order of clusterRoles only among the roles
of one name: whenever role a precedes role b in the first occurrences of the
ClusterRoles field, the first returned binding whose RoleRef.Name is the Name
of a comes no later than the first whose RoleRef.Name is the Name of b, and
when a and b carry the same Name, a precedes b in clusterRoles. -/
theorem resolved_roles_order (p : String) (rbs : List RoleBinding)
    (crbs : List ClusterRoleBinding) (crs : List ClusterRole) (a b : ClusterRole) :
    (a ∈ (extractUserDetails p rbs crbs crs).ClusterRoles.elems →
      b ∈ (extractUserDetails p rbs crbs crs).ClusterRoles.elems →
      List.indexOf a (extractUserDetails p rbs crbs crs).ClusterRoles.elems
        < List.indexOf b (extractUserDetails p rbs crbs crs).ClusterRoles.elems →
        List.indexOf a.Name
            ((extractUserDetails p rbs crbs crs).ClusterRoleBindings.elems.map
              fun c => c.RoleRef.Name)
          ≤ List.indexOf b.Name
            ((extractUserDetails p rbs crbs crs).ClusterRoleBindings.elems.map
              fun c => c.RoleRef.Name)
        ∧ (a.Name = b.Name → List.indexOf a crs < List.indexOf b crs))
    ∧ (a ∈ (extractServiceAccountDetails p rbs crbs crs).ClusterRoles.elems →
      b ∈ (extractServiceAccountDetails p rbs crbs crs).ClusterRoles.elems →
      List.indexOf a (extractServiceAccountDetails p rbs crbs crs).ClusterRoles.elems
        < List.indexOf b (extractServiceAccountDetails p rbs crbs crs).ClusterRoles.elems →
        List.indexOf a.Name
            ((extractServiceAccountDetails p rbs crbs crs).ClusterRoleBindings.elems.map
              fun c => c.RoleRef.Name)
          ≤ List.indexOf b.Name
            ((extractServiceAccountDetails p rbs crbs crs).ClusterRoleBindings.elems.map
              fun c => c.RoleRef.Name)
        ∧ (a.Name = b.Name → List.indexOf a crs < List.indexOf b crs)) := by
  constructor
  · rw [elems_userClusterRoles]
    exact resolved_order _ crs a b
  · rw [elems_serviceAccountClusterRoles]
    exact resolved_order _ crs a b

/-- The amended C15 at two concrete inputs: view resolved before admin because
its binding comes first, and two roles named admin resolved in clusterRoles
order. -/
theorem resolved_roles_order_witness :
    (List.indexOf sampleView (extractUserDetails "alice" [] [sampleViewCRB, sampleCRB1]
          sampleRoles).ClusterRoles.elems
        < List.indexOf sampleAdmin (extractUserDetails "alice" [] [sampleViewCRB, sampleCRB1]
          sampleRoles).ClusterRoles.elems
      ∧ List.indexOf sampleView.Name
            ((extractUserDetails "alice" [] [sampleViewCRB, sampleCRB1]
              sampleRoles).ClusterRoleBindings.elems.map fun c => c.RoleRef.Name)
          ≤ List.indexOf sampleAdmin.Name
            ((extractUserDetails "alice" [] [sampleViewCRB, sampleCRB1]
              sampleRoles).ClusterRoleBindings.elems.map fun c => c.RoleRef.Name))
    ∧ (List.indexOf (⟨"admin", []⟩ : ClusterRole)
          (extractUserDetails "alice" [] [dupRolesBinding] dupRoles).ClusterRoles.elems
        < List.indexOf (⟨"admin", [⟨["get"], [""], ["pods"]⟩]⟩ : ClusterRole)
          (extractUserDetails "alice" [] [dupRolesBinding] dupRoles).ClusterRoles.elems
      ∧ List.indexOf (⟨"admin", []⟩ : ClusterRole) dupRoles
        < List.indexOf (⟨"admin", [⟨["get"], [""], ["pods"]⟩]⟩ : ClusterRole) dupRoles) :=
  ⟨⟨by decide,
      ((resolved_roles_order "alice" [] [sampleViewCRB, sampleCRB1] sampleRoles
        sampleView sampleAdmin).1 (by decide) (by decide) (by decide)).1⟩,
    ⟨by decide,
      ((resolved_roles_order "alice" [] [dupRolesBinding] dupRoles
        ⟨"admin", []⟩ ⟨"admin", [⟨["get"], [""], ["pods"]⟩]⟩).1
          (by decide) (by decide) (by decide)).2 rfl⟩⟩

end Kubeberus
